import Mathlib

/-!
# Arduino_DIH: the device-side session protocol of the Device Interaction Hub library

A shallow embedding of `src/Arduino_DIH.cpp` / `src/Arduino_DIH.h`.

* The private fields of the class are the fields of the structure `Arduino_DIH`
  (the stream reference is replaced by the list of events a call produces).
* `millis()` is the board clock.  Every call of `millis()` in the source is an explicit
  argument of the embedded function: the value that call returns.  A function that calls
  `millis()` twice takes two readings, in the order of the calls.
* `unsigned long` is a 32 bit machine word; the only arithmetic on it is the subtraction
  in `loop`, embedded as `usub` (subtraction modulo `2 ^ 32`).
* `String(millis())` is the decimal representation of the reading (`StringOf`).
* A received line is what `deserializeJson` makes of it: a decoding error, or a document
  of which the handlers read `doc["type"]`, `json["message_id"]` and `json["payload"]`.
* A sent line is the JSON document handed to `sendMessage`, as the list of its members
  in the order the source assigns them; every document is taken to fit the capacity of
  its `StaticJsonDocument`.
* The user callbacks are recorded as events; they are taken not to call back into the
  session.
-/

namespace DIH

/-! ## Data model -/

/-- The enum `Arduino_DIH::ConnectionState`. -/
inductive ConnectionState where
  | DISCONNECTED
  | REGISTERING
  | REGISTERED
  deriving DecidableEq, Repr

open ConnectionState

/-- A member value of a JSON document built by the library: a string, or the nested
object `doc["payload"]`. -/
inductive JsonValue where
  | str (s : String)
  | obj (members : List (String × String))
  deriving DecidableEq, Repr

/-- A JSON document as the list of its members. -/
abbrev JsonObject := List (String × JsonValue)

/-- One line read from the stream, after `deserializeJson`: `malformed` when decoding
reports an error, otherwise the three values the handlers read from the document. -/
inductive Line where
  | malformed
  | json (type : String) (message_id : String) (payload : List (String × String))
  deriving DecidableEq, Repr

/-- What a call does to the outside world: a line written by `sendMessage`, or a call of
one of the two user callbacks with the payload of the received message. -/
inductive Event where
  | sent (doc : JsonObject)
  | dataCallback (payload : List (String × String))
  | commandCallback (payload : List (String × String))
  deriving DecidableEq, Repr

/-- The private fields of class `Arduino_DIH`.  The two callback fields hold `true` when
the function pointer is not `nullptr`. -/
structure Arduino_DIH where
  _dataCallback : Bool
  _commandCallback : Bool
  _connectionState : ConnectionState
  _lastAttemptTime : Nat
  _retryInterval : Nat
  _lastHeartbeatTime : Nat
  _heartbeatInterval : Nat
  _deviceID : String
  _isRegistered : Bool
  _awaitingHeartbeatAck : Bool
  _heartbeatAckTimeout : Nat
  _lastHeartbeatSentTime : Nat
  _lastHeartbeatMessageID : String
  _lastRegisterMessageID : String
  deriving DecidableEq, Repr

/-- The number of values of an `unsigned long`. -/
def ULONG : Nat := 2 ^ 32

/-- Subtraction of two `unsigned long` values, as in `currentTime - _lastAttemptTime`. -/
def usub (a b : Nat) : Nat := (a + (ULONG - b % ULONG)) % ULONG

/-- The Arduino conversion `String(unsigned long)`: the decimal digits of the value. -/
def StringOf (n : Nat) : String := Nat.repr n

/-! ## The member functions -/

/-- The constructor `Arduino_DIH::Arduino_DIH(Stream&)`; the two `String` fields and
`_deviceID` are default-constructed, that is empty. -/
def new : Arduino_DIH :=
  { _dataCallback := false
    _commandCallback := false
    _connectionState := DISCONNECTED
    _lastAttemptTime := 0
    _retryInterval := 5000
    _lastHeartbeatTime := 0
    _heartbeatInterval := 10000
    _deviceID := ""
    _isRegistered := false
    _awaitingHeartbeatAck := false
    _heartbeatAckTimeout := 5000
    _lastHeartbeatSentTime := 0
    _lastHeartbeatMessageID := ""
    _lastRegisterMessageID := "" }

/-- `Arduino_DIH::onData`. -/
def onData (callback : Bool) (s : Arduino_DIH) : Arduino_DIH :=
  { s with _dataCallback := callback }

/-- `Arduino_DIH::onCommand`. -/
def onCommand (callback : Bool) (s : Arduino_DIH) : Arduino_DIH :=
  { s with _commandCallback := callback }

/-- `Arduino_DIH::setDeviceID`. -/
def setDeviceID (deviceID : String) (s : Arduino_DIH) : Arduino_DIH :=
  { s with _deviceID := deviceID }

/-- `Arduino_DIH::isRegistered`. -/
def isRegistered (s : Arduino_DIH) : Bool := s._isRegistered

/-- `Arduino_DIH::getState`. -/
def getState (s : Arduino_DIH) : ConnectionState := s._connectionState

/-- `Arduino_DIH::registerDevice`; `t1` is the reading of `millis()` that becomes the
message id, `t2` the reading stored in `_lastAttemptTime`. -/
def registerDevice (t1 t2 : Nat) (deviceID : String) (s : Arduino_DIH) :
    Arduino_DIH × List Event :=
  let messageID := StringOf t1
  ({ s with _deviceID := deviceID, _lastAttemptTime := t2, _lastRegisterMessageID := messageID },
   [Event.sent [("type", JsonValue.str "register"), ("device_id", JsonValue.str deviceID),
                ("message_id", JsonValue.str messageID)]])

/-- `Arduino_DIH::deregisterDevice`; `t` is the reading of `millis()`. -/
def deregisterDevice (t : Nat) (s : Arduino_DIH) : Arduino_DIH × List Event :=
  ({ s with _isRegistered := false },
   [Event.sent [("type", JsonValue.str "deregister"), ("device_id", JsonValue.str s._deviceID),
                ("message_id", JsonValue.str (StringOf t))]])

/-- `Arduino_DIH::sendData`; `t` is the reading of `millis()`. -/
def sendData (t : Nat) (key value : String) (s : Arduino_DIH) : Arduino_DIH × List Event :=
  if !s._isRegistered then (s, [])
  else
    (s, [Event.sent [("type", JsonValue.str "data"), ("device_id", JsonValue.str s._deviceID),
                     ("message_id", JsonValue.str (StringOf t)),
                     ("payload", JsonValue.obj [(key, value)])]])

/-- `Arduino_DIH::sendHeartbeat`; `t1` is the reading of `millis()` that becomes the
message id, `t2` the reading stored in `_lastHeartbeatSentTime`. -/
def sendHeartbeat (t1 t2 : Nat) (s : Arduino_DIH) : Arduino_DIH × List Event :=
  let messageID := StringOf t1
  ({ s with _awaitingHeartbeatAck := true, _lastHeartbeatSentTime := t2,
            _lastHeartbeatMessageID := messageID },
   [Event.sent [("type", JsonValue.str "heartbeat"), ("device_id", JsonValue.str s._deviceID),
                ("message_id", JsonValue.str messageID)]])

/-- `Arduino_DIH::handleAck`; `t` is the reading of `millis()` in the branch taken. -/
def handleAck (t : Nat) (messageID : String) (s : Arduino_DIH) : Arduino_DIH × List Event :=
  if s._connectionState = REGISTERING ∧ messageID = s._lastRegisterMessageID then
    ({ s with _connectionState := REGISTERED, _isRegistered := true,
              _awaitingHeartbeatAck := false, _lastHeartbeatTime := t }, [])
  else if s._awaitingHeartbeatAck = true ∧ messageID = s._lastHeartbeatMessageID then
    ({ s with _awaitingHeartbeatAck := false, _lastHeartbeatTime := t }, [])
  else (s, [])

/-- `Arduino_DIH::handleNack`. -/
def handleNack (s : Arduino_DIH) : Arduino_DIH × List Event :=
  ({ s with _connectionState := DISCONNECTED, _isRegistered := false }, [])

/-- `Arduino_DIH::handleData`. -/
def handleData (messageID : String) (payload : List (String × String)) (s : Arduino_DIH) :
    Arduino_DIH × List Event :=
  ((s, (if s._dataCallback then [Event.dataCallback payload] else []) ++
    [Event.sent [("type", JsonValue.str "ack"), ("message_id", JsonValue.str messageID)]]))

/-- `Arduino_DIH::handleCommand`. -/
def handleCommand (payload : List (String × String)) (s : Arduino_DIH) :
    Arduino_DIH × List Event :=
  (s, if s._commandCallback then [Event.commandCallback payload] else [])

/-- `Arduino_DIH::processIncomingMessage`; `t` is the reading of `millis()` while the
message is handled. -/
def processIncomingMessage (t : Nat) (message : Line) (s : Arduino_DIH) :
    Arduino_DIH × List Event :=
  match message with
  | Line.malformed => (s, [])
  | Line.json type message_id payload =>
    if type = "ack" then handleAck t message_id s
    else if type = "nack" then handleNack s
    else if type = "data" then handleData message_id payload s
    else if type = "command" then handleCommand payload s
    else (s, [])

/-- The `while (_stream.available())` loop of `Arduino_DIH::loop`: the lines available
during the tick, each with the clock reading while it is handled. -/
def messageProcessing : List (Line × Nat) → Arduino_DIH → Arduino_DIH × List Event
  | [], s => (s, [])
  | (message, t) :: rest, s =>
    let r := processIncomingMessage t message s
    let r2 := messageProcessing rest r.1
    (r2.1, r.2 ++ r2.2)

/-- The `switch (_connectionState)` of `Arduino_DIH::loop`; `t1`, `t2` are the two
readings of `millis()` taken by `registerDevice` or `sendHeartbeat`. -/
def connectionManagement (currentTime t1 t2 : Nat) (s : Arduino_DIH) :
    Arduino_DIH × List Event :=
  match s._connectionState with
  | DISCONNECTED =>
    if usub currentTime s._lastAttemptTime ≥ s._retryInterval then
      let r := registerDevice t1 t2 s._deviceID s
      ({ r.1 with _lastAttemptTime := currentTime, _connectionState := REGISTERING }, r.2)
    else (s, [])
  | REGISTERING =>
    if usub currentTime s._lastAttemptTime ≥ s._retryInterval then
      ({ s with _connectionState := DISCONNECTED }, [])
    else (s, [])
  | REGISTERED =>
    if s._awaitingHeartbeatAck then
      if usub currentTime s._lastHeartbeatSentTime ≥ s._heartbeatAckTimeout then
        ({ s with _connectionState := DISCONNECTED, _isRegistered := false,
                  _awaitingHeartbeatAck := false }, [])
      else (s, [])
    else
      if usub currentTime s._lastHeartbeatSentTime ≥ s._heartbeatInterval then
        sendHeartbeat t1 t2 s
      else (s, [])

/-- `Arduino_DIH::loop`: `currentTime` is the first reading of `millis()`, `lines` the
lines drained from the stream, `t1`, `t2` the readings of the connection management. -/
def loop (currentTime : Nat) (lines : List (Line × Nat)) (t1 t2 : Nat) (s : Arduino_DIH) :
    Arduino_DIH × List Event :=
  let r := messageProcessing lines s
  let r2 := connectionManagement currentTime t1 t2 r.1
  (r2.1, r.2 ++ r2.2)

/-- A tick at one clock time: `loop` when every reading of `millis()` during the call
returns `now`. -/
def tickAt (now : Nat) (lines : List Line) (s : Arduino_DIH) : Arduino_DIH × List Event :=
  loop now (lines.map fun l => (l, now)) now now s

/-! ## Runs of the public interface -/

/-- One call of `loop` with everything it reads from outside: the clock readings and the
lines available on the stream. -/
structure Tick where
  currentTime : Nat
  lines : List (Line × Nat)
  t1 : Nat
  t2 : Nat
  deriving DecidableEq, Repr

/-- The effect of one tick. -/
def Tick.apply (k : Tick) (s : Arduino_DIH) : Arduino_DIH × List Event :=
  loop k.currentTime k.lines k.t1 k.t2 s

/-- The tick in which every reading of the clock returns `now`. -/
def Tick.atTime (now : Nat) (lines : List Line) : Tick :=
  ⟨now, lines.map fun l => (l, now), now, now⟩

/-- One call of the public interface by the host program, with the clock readings the
call takes. -/
inductive Op where
  | loop (k : Tick)
  | registerDevice (t1 t2 : Nat) (deviceID : String)
  | deregisterDevice (t : Nat)
  | sendData (t : Nat) (key value : String)
  | setDeviceID (deviceID : String)
  | onData (callback : Bool)
  | onCommand (callback : Bool)
  deriving DecidableEq, Repr

/-- The effect of one call. -/
def Op.apply : Op → Arduino_DIH → Arduino_DIH × List Event
  | Op.loop k, s => k.apply s
  | Op.registerDevice t1 t2 deviceID, s => DIH.registerDevice t1 t2 deviceID s
  | Op.deregisterDevice t, s => DIH.deregisterDevice t s
  | Op.sendData t key value, s => DIH.sendData t key value s
  | Op.setDeviceID deviceID, s => (DIH.setDeviceID deviceID s, [])
  | Op.onData callback, s => (DIH.onData callback s, [])
  | Op.onCommand callback, s => (DIH.onCommand callback s, [])

/-- A sequence of calls, first call first: the final session and everything emitted. -/
def run : List Op → Arduino_DIH → Arduino_DIH × List Event
  | [], s => (s, [])
  | op :: rest, s =>
    let r := op.apply s
    let r2 := run rest r.1
    (r2.1, r.2 ++ r2.2)

/-- The call is `deregisterDevice`. -/
def Op.isDeregister : Op → Bool
  | Op.deregisterDevice _ => true
  | _ => false

/-- The line is an Ack that `handleAck` takes as the answer to the pending registration:
the state is REGISTERING and the id is the pending register id. -/
def acksRegistration (s : Arduino_DIH) : Line → Prop
  | Line.malformed => False
  | Line.json type message_id _ =>
    type = "ack" ∧ s._connectionState = REGISTERING ∧ message_id = s._lastRegisterMessageID

instance (s : Arduino_DIH) : (l : Line) → Decidable (acksRegistration s l)
  | Line.malformed => isFalse (fun h => h)
  | Line.json type message_id _ =>
    inferInstanceAs (Decidable (type = "ack" ∧ s._connectionState = REGISTERING ∧
      message_id = s._lastRegisterMessageID))

/-- No line of the drain is an Ack for the pending registration at the moment it is
handled. -/
def noRegistrationAck : List (Line × Nat) → Arduino_DIH → Prop
  | [], _ => True
  | (message, t) :: rest, s =>
    ¬ acksRegistration s message ∧ noRegistrationAck rest (processIncomingMessage t message s).1

instance : (lines : List (Line × Nat)) → (s : Arduino_DIH) →
    Decidable (noRegistrationAck lines s)
  | [], _ => isTrue trivial
  | (message, t) :: rest, s =>
    have := instDecidableNoRegistrationAck rest (processIncomingMessage t message s).1
    inferInstanceAs (Decidable (¬ acksRegistration s message ∧
      noRegistrationAck rest (processIncomingMessage t message s).1))

/-- No tick of the sequence handles an Ack for the pending registration. -/
def neverAcked : List Tick → Arduino_DIH → Prop
  | [], _ => True
  | k :: rest, s => noRegistrationAck k.lines s ∧ neverAcked rest (k.apply s).1

instance : (ticks : List Tick) → (s : Arduino_DIH) → Decidable (neverAcked ticks s)
  | [], _ => isTrue trivial
  | k :: rest, s =>
    have := instDecidableNeverAcked rest (k.apply s).1
    inferInstanceAs (Decidable (noRegistrationAck k.lines s ∧ neverAcked rest (k.apply s).1))

/-- The sessions a drain goes through: the one after each handled line. -/
def statesOfLines : List (Line × Nat) → Arduino_DIH → List Arduino_DIH
  | [], _ => []
  | (message, t) :: rest, s =>
    (processIncomingMessage t message s).1 ::
      statesOfLines rest (processIncomingMessage t message s).1

/-- The sessions a sequence of ticks goes through: within each tick the one after each
handled line, then the one the tick ends in. -/
def statesOfTicks : List Tick → Arduino_DIH → List Arduino_DIH
  | [], _ => []
  | k :: rest, s =>
    statesOfLines k.lines s ++ (k.apply s).1 :: statesOfTicks rest (k.apply s).1

/-- The `type` member of a document. -/
def docType (doc : JsonObject) : Option JsonValue := doc.lookup "type"

/-- The event is a sent message of the given type. -/
def Event.isSent (type : String) : Event → Bool
  | Event.sent doc => docType doc == some (JsonValue.str type)
  | _ => false

/-- The line is an Ack with an id other than `x`. -/
def isAckOtherThan (x : String) : Line → Prop
  | Line.malformed => False
  | Line.json type message_id _ => type = "ack" ∧ message_id ≠ x

instance (x : String) : (l : Line) → Decidable (isAckOtherThan x l)
  | Line.malformed => isFalse (fun h => h)
  | Line.json type message_id _ =>
    inferInstanceAs (Decidable (type = "ack" ∧ message_id ≠ x))

/-- The flag `_isRegistered` agrees with the connection state. -/
def flagMatchesState (s : Arduino_DIH) : Prop :=
  s._isRegistered = true ↔ s._connectionState = REGISTERED

/-- The flag `_isRegistered` is set only in state REGISTERED. -/
def flagImpliesState (s : Arduino_DIH) : Prop :=
  s._isRegistered = true → s._connectionState = REGISTERED

/-- The session is not registered: neither by its state nor by its flag. -/
def unregistered (s : Arduino_DIH) : Prop :=
  s._connectionState ≠ REGISTERED ∧ s._isRegistered = false

/-- A registered session with a heartbeat in flight since time 10000: registration at
5000, its Ack at 5001, the heartbeat at 10000. -/
def awaitingSession : Arduino_DIH :=
  (run [Op.loop (Tick.atTime 5000 []), Op.loop (Tick.atTime 5001 [Line.json "ack" "5000" []]),
    Op.loop (Tick.atTime 10000 [])] new).1

/-- Some event of the list is a sent Heartbeat message. -/
def emitsHeartbeat (events : List Event) : Bool := events.any (Event.isSent "heartbeat")

/-- The clock readings a tick takes, in the order `loop` takes them. -/
def Tick.readings (k : Tick) : List Nat :=
  k.currentTime :: (k.lines.map Prod.snd ++ [k.t1, k.t2])

/-- The clock readings a call takes, in order. -/
def Op.readings : Op → List Nat
  | Op.loop k => k.readings
  | Op.registerDevice t1 t2 _ => [t1, t2]
  | Op.deregisterDevice t => [t]
  | Op.sendData t _ _ => [t]
  | Op.setDeviceID _ => []
  | Op.onData _ => []
  | Op.onCommand _ => []

/-- The clock readings of a sequence of calls, in order. -/
def clockReadings : List Op → List Nat
  | [] => []
  | op :: rest => op.readings ++ clockReadings rest

/-- The clock of the run never goes back and never wraps around: the readings are
non-decreasing in the order they are taken and each is a value of `unsigned long`. -/
def monotoneClock (ops : List Op) : Prop :=
  (clockReadings ops).Pairwise (· ≤ ·) ∧ ∀ r ∈ clockReadings ops, r < ULONG

/-- The call is a tick. -/
def Op.isLoop : Op → Bool
  | Op.loop _ => true
  | _ => false

instance (ops : List Op) : Decidable (monotoneClock ops) :=
  inferInstanceAs (Decidable ((clockReadings ops).Pairwise (· ≤ ·) ∧
    ∀ r ∈ clockReadings ops, r < ULONG))

/-- A registered session: registration at time 5000, its Ack at 5001. -/
def registeredSession : Arduino_DIH :=
  (run [Op.loop (Tick.atTime 5000 []),
    Op.loop (Tick.atTime 5001 [Line.json "ack" "5000" []])] new).1

/-- A session waiting for the Ack of its registration, sent at time 5000. -/
def registeringSession : Arduino_DIH := (tickAt 5000 [] new).1

/-- A session waiting for the Ack of a registration during which the clock advanced: the
tick began at time 5000, five undecodable lines were read from the stream, and
`registerDevice` read the clock at 10000. -/
def slowRegisteringSession : Arduino_DIH :=
  (loop 5000 [(Line.malformed, 6000), (Line.malformed, 7000), (Line.malformed, 8000),
    (Line.malformed, 9000), (Line.malformed, 10000)] 10000 10000 new).1

/-- The line is a decoded message of the given type. -/
def Line.hasType (type : String) : Line → Prop
  | Line.malformed => False
  | Line.json ty _ _ => ty = type

instance (type : String) : (l : Line) → Decidable (l.hasType type)
  | Line.malformed => isFalse (fun h => h)
  | Line.json ty _ _ => inferInstanceAs (Decidable (ty = type))

/-- The event is a line written to the stream. -/
def Event.isOutbound : Event → Bool
  | Event.sent _ => true
  | _ => false

/-- The freshly constructed session configured with device id "dev-1". -/
def dev1 : Arduino_DIH := setDeviceID "dev-1" new

/-- The session waits for the Ack of the registration with id `x`. -/
def awaitsRegistration (x : String) (s : Arduino_DIH) : Prop :=
  s._connectionState = REGISTERING ∧ s._lastRegisterMessageID = x

/-- The session is registered, by state and by flag, with no heartbeat in flight. -/
def registeredIdle (s : Arduino_DIH) : Prop :=
  s._connectionState = REGISTERED ∧ s._isRegistered = true ∧ s._awaitingHeartbeatAck = false

/-- The pending register id is live: non-empty, and the state is REGISTERING, in which
`handleAck` takes an Ack with that id. -/
def registerIdLive (s : Arduino_DIH) : Prop :=
  s._lastRegisterMessageID ≠ "" ∧ s._connectionState = REGISTERING

instance (s : Arduino_DIH) : Decidable (registerIdLive s) :=
  inferInstanceAs (Decidable (s._lastRegisterMessageID ≠ "" ∧ s._connectionState = REGISTERING))

/-- The pending heartbeat id is live: non-empty, and `_awaitingHeartbeatAck` is true. -/
def heartbeatIdLive (s : Arduino_DIH) : Prop :=
  s._lastHeartbeatMessageID ≠ "" ∧ s._awaitingHeartbeatAck = true

instance (s : Arduino_DIH) : Decidable (heartbeatIdLive s) :=
  inferInstanceAs (Decidable (s._lastHeartbeatMessageID ≠ "" ∧ s._awaitingHeartbeatAck = true))

/-- Exactly one of the two pending ids is live. -/
def exactlyOneLive (s : Arduino_DIH) : Prop :=
  (registerIdLive s ∧ ¬ heartbeatIdLive s) ∨ (¬ registerIdLive s ∧ heartbeatIdLive s)

instance (s : Arduino_DIH) : Decidable (exactlyOneLive s) :=
  inferInstanceAs (Decidable ((registerIdLive s ∧ ¬ heartbeatIdLive s) ∨
    (¬ registerIdLive s ∧ heartbeatIdLive s)))

/-- The line is a Nack handled while a heartbeat is marked as awaiting its Ack. -/
def nackWhileAwaiting (s : Arduino_DIH) : Line → Prop
  | Line.malformed => False
  | Line.json type _ _ => type = "nack" ∧ s._awaitingHeartbeatAck = true

instance (s : Arduino_DIH) : (l : Line) → Decidable (nackWhileAwaiting s l)
  | Line.malformed => isFalse (fun h => h)
  | Line.json type _ _ =>
    inferInstanceAs (Decidable (type = "nack" ∧ s._awaitingHeartbeatAck = true))

/-- No line of the drain is a Nack handled while a heartbeat is marked as awaiting. -/
def noNackWhileAwaiting : List (Line × Nat) → Arduino_DIH → Prop
  | [], _ => True
  | (message, t) :: rest, s =>
    ¬ nackWhileAwaiting s message ∧
      noNackWhileAwaiting rest (processIncomingMessage t message s).1

instance : (lines : List (Line × Nat)) → (s : Arduino_DIH) →
    Decidable (noNackWhileAwaiting lines s)
  | [], _ => isTrue trivial
  | (message, t) :: rest, s =>
    have := instDecidableNoNackWhileAwaiting rest (processIncomingMessage t message s).1
    inferInstanceAs (Decidable (¬ nackWhileAwaiting s message ∧
      noNackWhileAwaiting rest (processIncomingMessage t message s).1))

/-- Every Nack the call handles arrives while no heartbeat is marked as awaiting. -/
def Op.nacksOnlyIdle : Op → Arduino_DIH → Prop
  | Op.loop k, s => noNackWhileAwaiting k.lines s
  | _, _ => True

instance : (op : Op) → (s : Arduino_DIH) → Decidable (op.nacksOnlyIdle s)
  | Op.loop k, s => inferInstanceAs (Decidable (noNackWhileAwaiting k.lines s))
  | Op.registerDevice _ _ _, _ => isTrue trivial
  | Op.deregisterDevice _, _ => isTrue trivial
  | Op.sendData _ _ _, _ => isTrue trivial
  | Op.setDeviceID _, _ => isTrue trivial
  | Op.onData _, _ => isTrue trivial
  | Op.onCommand _, _ => isTrue trivial

/-- Every Nack of the run is handled while no heartbeat is marked as awaiting its Ack,
as when the hub rejects a registration. -/
def nacksOnlyIdle : List Op → Arduino_DIH → Prop
  | [], _ => True
  | op :: rest, s => op.nacksOnlyIdle s ∧ nacksOnlyIdle rest (op.apply s).1

instance decidableNacksOnlyIdle :
    (ops : List Op) → (s : Arduino_DIH) → Decidable (nacksOnlyIdle ops s)
  | [], _ => isTrue trivial
  | op :: rest, s =>
    have := decidableNacksOnlyIdle rest (op.apply s).1
    inferInstanceAs (Decidable (op.nacksOnlyIdle s ∧ nacksOnlyIdle rest (op.apply s).1))

/-- A pending id that an Ack can match has been set: the heartbeat id while a heartbeat
awaits its Ack, the register id in state REGISTERING. -/
def pendingIdsSet (s : Arduino_DIH) : Prop :=
  (s._awaitingHeartbeatAck = true → s._lastHeartbeatMessageID ≠ "") ∧
    (s._connectionState = REGISTERING → s._lastRegisterMessageID ≠ "")

/-- A heartbeat awaits its Ack only in state REGISTERED. -/
def awaitingOnlyRegistered (s : Arduino_DIH) : Prop :=
  s._awaitingHeartbeatAck = true → s._connectionState = REGISTERED

/-- A session in which a Nack arrived while a heartbeat was awaiting its Ack:
registration at 5000, its Ack at 5001, a heartbeat at 10000, then at 10001 a tick that
reads a Nack and registers again. -/
def nackedWhileAwaitingSession : Arduino_DIH :=
  (run [Op.loop (Tick.atTime 5000 []), Op.loop (Tick.atTime 5001 [Line.json "ack" "5000" []]),
    Op.loop (Tick.atTime 10000 []),
    Op.loop (Tick.atTime 10001 [Line.json "nack" "10000" []])] new).1

/-- An Ack with id `x` matches neither branch of `handleAck`: in state REGISTERING the
pending register id is another one, and while a heartbeat awaits its Ack the pending
heartbeat id is another one. -/
def ignoresAck (x : String) (s : Arduino_DIH) : Prop :=
  (s._connectionState = REGISTERING → s._lastRegisterMessageID ≠ x) ∧
    (s._awaitingHeartbeatAck = true → s._lastHeartbeatMessageID ≠ x)

/-- A session whose pending registration shares its id with a heartbeat still marked as
awaiting: registration at 5000, its Ack at 5001, a heartbeat at 10000, and within the same
millisecond a tick that reads a Nack and registers again. -/
def collidingSession : Arduino_DIH :=
  (run [Op.loop (Tick.atTime 5000 []), Op.loop (Tick.atTime 5001 [Line.json "ack" "5000" []]),
    Op.loop (Tick.atTime 10000 []),
    Op.loop (Tick.atTime 10000 [Line.json "nack" "10000" []])] new).1

/-- A session waiting for the Ack of a registration whose id was read from the clock a
little after the tick began: the tick began at time 5000 and `registerDevice` read 5003. -/
def lateIdSession : Arduino_DIH := (loop 5000 [] 5003 5003 new).1

/-- A registered session with a heartbeat in flight whose id was read from the clock
before its sending time: the tick began at 10000, `sendHeartbeat` read 10002 for the id and
10005 for `_lastHeartbeatSentTime`. -/
def lateHeartbeatSession : Arduino_DIH := (loop 10000 [] 10002 10005 registeredSession).1

/-- The clock reading a call takes for a message id that becomes a pending id: the
first reading of `registerDevice` or `sendHeartbeat`, for a tick and for a direct call of
`registerDevice`. -/
def Op.idReadings : Op → List Nat
  | Op.loop k => [k.t1]
  | Op.registerDevice t1 _ _ => [t1]
  | _ => []

/-- The clock readings a sequence of calls takes for pending message ids. -/
def idReadings : List Op → List Nat
  | [] => []
  | op :: rest => op.idReadings ++ idReadings rest

/-! ## Decimal strings -/

/-- The value of a decimal digit character. -/
def digitValue (c : Char) : Nat := c.toNat - 48

/-- Reads decimal digits onto an accumulator. -/
def readDecimal (cs : List Char) (acc : Nat) : Nat :=
  cs.foldl (fun a c => 10 * a + digitValue c) acc

theorem digitValue_digitChar (d : Nat) (h : d < 10) : digitValue (Nat.digitChar d) = d := by
  interval_cases d <;> rfl

theorem readDecimal_toDigitsCore (fuel : Nat) : ∀ (n : Nat) (ds : List Char), n < fuel →
    readDecimal (Nat.toDigitsCore 10 fuel n ds) 0 = readDecimal ds n := by
  induction fuel with
  | zero => intro n ds h; omega
  | succ fuel ih =>
    intro n ds h
    have hd : digitValue (Nat.digitChar (n % 10)) = n % 10 :=
      digitValue_digitChar _ (Nat.mod_lt _ (by decide))
    simp only [Nat.toDigitsCore]
    split
    · simp only [readDecimal, List.foldl_cons, hd]
      congr 1
      omega
    · rw [ih (n / 10) _ (by omega)]
      simp only [readDecimal, List.foldl_cons, hd]
      congr 1
      omega

/-- Two clock readings with the same decimal string are equal. -/
theorem StringOf_injective (a b : Nat) (h : StringOf a = StringOf b) : a = b := by
  have h1 : Nat.toDigits 10 a = Nat.toDigits 10 b := by
    have := congrArg String.data h
    simpa [StringOf, Nat.repr, List.asString] using this
  have h2 := congrArg (fun l => readDecimal l 0) h1
  simp only [Nat.toDigits] at h2
  rw [readDecimal_toDigitsCore _ _ _ (Nat.lt_succ_self a),
    readDecimal_toDigitsCore _ _ _ (Nat.lt_succ_self b)] at h2
  simpa [readDecimal] using h2

theorem toDigitsCore_ne_nil (fuel : Nat) : ∀ (n : Nat) (ds : List Char), ds ≠ [] →
    Nat.toDigitsCore 10 fuel n ds ≠ [] := by
  induction fuel with
  | zero => intro n ds h; simpa [Nat.toDigitsCore] using h
  | succ fuel ih =>
    intro n ds _
    simp only [Nat.toDigitsCore]
    split
    · simp
    · exact ih _ _ (by simp)

/-- The decimal string of a clock reading is not empty. -/
theorem StringOf_ne_empty (a : Nat) : StringOf a ≠ "" := by
  intro h
  have h1 := congrArg String.data h
  have h2 : Nat.toDigits 10 a = [] := by
    simpa [StringOf, Nat.repr, List.asString] using h1
  simp only [Nat.toDigits, Nat.toDigitsCore] at h2
  split at h2
  · simp at h2
  · exact toDigitsCore_ne_nil _ _ _ (by simp) h2

/-! ## Clock arithmetic -/

theorem usub_of_le (a b : Nat) (h : b ≤ a) (ha : a < ULONG) : usub a b = a - b := by
  have hU : ULONG = 4294967296 := by decide
  unfold usub
  rw [hU] at ha ⊢
  omega

/-! ## The drain of inbound lines -/

theorem messageProcessing_append (a b : List (Line × Nat)) : ∀ s : Arduino_DIH,
    messageProcessing (a ++ b) s =
      ((messageProcessing b (messageProcessing a s).1).1,
       (messageProcessing a s).2 ++ (messageProcessing b (messageProcessing a s).1).2) := by
  induction a with
  | nil => intro s; simp [messageProcessing]
  | cons x xs ih =>
    intro s
    obtain ⟨m, t⟩ := x
    simp [messageProcessing, ih, List.append_assoc]

theorem isAck_of_isAckOtherThan {x : String} {l : Line} (h : isAckOtherThan x l) :
    ∃ message_id payload, l = Line.json "ack" message_id payload := by
  cases l with
  | malformed => exact absurd h (by simp [isAckOtherThan])
  | json type message_id payload =>
    obtain ⟨h1, _⟩ := h
    exact ⟨message_id, payload, by rw [h1]⟩

/-- In state REGISTERING, Acks with ids other than the pending register id change at
most the heartbeat wait flag and the liveness time, and emit nothing. -/
theorem drain_other_acks (lines : List (Line × Nat)) : ∀ s : Arduino_DIH,
    s._connectionState = REGISTERING →
    (∀ l ∈ lines, isAckOtherThan s._lastRegisterMessageID l.1) →
    ∃ a h, messageProcessing lines s =
      ({ s with _awaitingHeartbeatAck := a, _lastHeartbeatTime := h }, []) := by
  induction lines with
  | nil => intro s _ _; exact ⟨s._awaitingHeartbeatAck, s._lastHeartbeatTime, rfl⟩
  | cons x xs ih =>
    intro s hs hall
    obtain ⟨m, t⟩ := x
    have hx := hall (m, t) (List.mem_cons_self _ _)
    have hrest : ∀ l ∈ xs, isAckOtherThan s._lastRegisterMessageID l.1 :=
      fun l hl => hall l (List.mem_cons_of_mem _ hl)
    cases m with
    | malformed => exact absurd hx (by simp [isAckOtherThan])
    | json type message_id payload =>
      obtain ⟨h1, h2⟩ := hx
      subst h1
      by_cases hm : s._awaitingHeartbeatAck = true ∧ message_id = s._lastHeartbeatMessageID
      · have hstep : processIncomingMessage t (Line.json "ack" message_id payload) s =
            ({ s with _awaitingHeartbeatAck := false, _lastHeartbeatTime := t }, []) := by
          simp only [processIncomingMessage, handleAck, if_true]
          rw [if_neg (fun hc => h2 hc.2), if_pos hm]
        obtain ⟨a, h, hih⟩ :=
          ih { s with _awaitingHeartbeatAck := false, _lastHeartbeatTime := t } hs hrest
        exact ⟨a, h, by simp [messageProcessing, hstep, hih]⟩
      · have hstep : processIncomingMessage t (Line.json "ack" message_id payload) s =
            (s, []) := by
          simp only [processIncomingMessage, handleAck, if_true]
          rw [if_neg (fun hc => h2 hc.2), if_neg hm]
        obtain ⟨a, h, hih⟩ := ih s hs hrest
        exact ⟨a, h, by simp [messageProcessing, hstep, hih]⟩

/-- In state REGISTERED with no heartbeat awaiting its Ack, Acks are ignored. -/
theorem drain_acks_registered (lines : List (Line × Nat)) (s : Arduino_DIH)
    (hs : s._connectionState = REGISTERED) (ha : s._awaitingHeartbeatAck = false)
    (hall : ∀ l ∈ lines, ∃ message_id payload, l.1 = Line.json "ack" message_id payload) :
    messageProcessing lines s = (s, []) := by
  induction lines with
  | nil => rfl
  | cons x xs ih =>
    obtain ⟨m, t⟩ := x
    obtain ⟨message_id, payload, hm⟩ := hall (m, t) (List.mem_cons_self _ _)
    simp only at hm
    subst hm
    have hstep : processIncomingMessage t (Line.json "ack" message_id payload) s = (s, []) := by
      simp [processIncomingMessage, handleAck, hs, ha]
    simp [messageProcessing, hstep, ih (fun l hl => hall l (List.mem_cons_of_mem _ hl))]

/-! ## Handling one inbound message -/

/-- C3: in state REGISTERING an Ack carrying the pending register id sets the state to
REGISTERED, sets `_isRegistered`, clears `_awaitingHeartbeatAck`, stamps
`_lastHeartbeatTime` with the clock reading, and emits nothing; the same holds when the
Ack arrives as a line through `processIncomingMessage`. -/
theorem handleAck_registers (s : Arduino_DIH) (t : Nat) (payload : List (String × String))
    (h : s._connectionState = REGISTERING) :
    handleAck t s._lastRegisterMessageID s =
        ({ s with _connectionState := REGISTERED, _isRegistered := true,
                  _awaitingHeartbeatAck := false, _lastHeartbeatTime := t }, []) ∧
      getState (handleAck t s._lastRegisterMessageID s).1 = REGISTERED ∧
      isRegistered (handleAck t s._lastRegisterMessageID s).1 = true ∧
      (handleAck t s._lastRegisterMessageID s).1._awaitingHeartbeatAck = false ∧
      (handleAck t s._lastRegisterMessageID s).1._lastHeartbeatTime = t ∧
      (handleAck t s._lastRegisterMessageID s).2 = [] ∧
      processIncomingMessage t (Line.json "ack" s._lastRegisterMessageID payload) s =
        handleAck t s._lastRegisterMessageID s := by
  simp [handleAck, processIncomingMessage, h, getState, isRegistered]

theorem handleAck_registers_witness :
    (tickAt 5000 [] new).1._connectionState = REGISTERING ∧
      getState (handleAck 5001 "5000" (tickAt 5000 [] new).1).1 = REGISTERED :=
  ⟨by decide, (handleAck_registers (tickAt 5000 [] new).1 5001 [] (by decide)).2.1⟩

/-- C4: handling a Nack, whatever its id and whatever the session, ends in state
DISCONNECTED with `_isRegistered` false, emits nothing, and touches no other field. -/
theorem nack_disconnects (s : Arduino_DIH) (t : Nat) (message_id : String)
    (payload : List (String × String)) :
    processIncomingMessage t (Line.json "nack" message_id payload) s =
        ({ s with _connectionState := DISCONNECTED, _isRegistered := false }, []) ∧
      getState (processIncomingMessage t (Line.json "nack" message_id payload) s).1
        = DISCONNECTED ∧
      isRegistered (processIncomingMessage t (Line.json "nack" message_id payload) s).1
        = false ∧
      getState (handleNack s).1 = DISCONNECTED ∧ isRegistered (handleNack s).1 = false := by
  have h : ("nack" : String) ≠ "ack" := by decide
  simp [processIncomingMessage, handleNack, getState, isRegistered, h]

/-- C10: an Ack whose id is neither the pending register id nor the pending heartbeat
id changes no field of the session and emits nothing; and in state REGISTERING with
pending register id X, a drain of Acks with other ids around one Ack with id X ends in the
same session, with the same (empty) output, as the drain of that one Ack alone, and so
does the whole tick. -/
theorem unmatched_ack_ignored (s : Arduino_DIH) :
    (∀ (t : Nat) (message_id : String) (payload : List (String × String)),
        message_id ≠ s._lastRegisterMessageID → message_id ≠ s._lastHeartbeatMessageID →
        handleAck t message_id s = (s, []) ∧
          processIncomingMessage t (Line.json "ack" message_id payload) s = (s, [])) ∧
    (s._connectionState = REGISTERING →
      ∀ (before after : List (Line × Nat)) (t : Nat) (payload : List (String × String)),
        (∀ l ∈ before, isAckOtherThan s._lastRegisterMessageID l.1) →
        (∀ l ∈ after, isAckOtherThan s._lastRegisterMessageID l.1) →
        messageProcessing
            (before ++ (Line.json "ack" s._lastRegisterMessageID payload, t) :: after) s =
          messageProcessing [(Line.json "ack" s._lastRegisterMessageID payload, t)] s ∧
        getState (messageProcessing [(Line.json "ack" s._lastRegisterMessageID payload, t)] s).1
          = REGISTERED ∧
        (messageProcessing [(Line.json "ack" s._lastRegisterMessageID payload, t)] s).2 = [] ∧
        ∀ currentTime t1 t2 : Nat,
          loop currentTime
              (before ++ (Line.json "ack" s._lastRegisterMessageID payload, t) :: after)
              t1 t2 s =
            loop currentTime [(Line.json "ack" s._lastRegisterMessageID payload, t)]
              t1 t2 s) := by
  refine ⟨?_, ?_⟩
  · intro t message_id payload h1 h2
    simp [handleAck, processIncomingMessage, h1, h2]
  · intro hs before after t payload hb ha
    have key : messageProcessing
          (before ++ (Line.json "ack" s._lastRegisterMessageID payload, t) :: after) s =
        messageProcessing [(Line.json "ack" s._lastRegisterMessageID payload, t)] s := by
      rw [messageProcessing_append]
      obtain ⟨a, h, hpre⟩ := drain_other_acks before s hs hb
      rw [hpre]
      have hone : processIncomingMessage t (Line.json "ack" s._lastRegisterMessageID payload)
            { s with _awaitingHeartbeatAck := a, _lastHeartbeatTime := h } =
          processIncomingMessage t (Line.json "ack" s._lastRegisterMessageID payload) s := by
        simp [processIncomingMessage, handleAck, hs]
      have hreg : (processIncomingMessage t
            (Line.json "ack" s._lastRegisterMessageID payload) s) =
          ({ s with _connectionState := REGISTERED, _isRegistered := true,
                    _awaitingHeartbeatAck := false, _lastHeartbeatTime := t }, []) := by
        simp [processIncomingMessage, handleAck, hs]
      simp only [messageProcessing, hone, hreg, List.nil_append, List.append_nil]
      rw [drain_acks_registered after _ rfl rfl
        (fun l hl => isAck_of_isAckOtherThan (ha l hl))]
    refine ⟨key, ?_, ?_, ?_⟩
    · simp [messageProcessing, processIncomingMessage, handleAck, hs, getState]
    · simp [messageProcessing, processIncomingMessage, handleAck, hs]
    · intro currentTime t1 t2
      simp only [loop, key]

theorem unmatched_ack_ignored_witness :
    (tickAt 5000 [] new).1._connectionState = REGISTERING ∧
      messageProcessing ([(Line.json "ack" "17" [], 5001)] ++
          (Line.json "ack" (tickAt 5000 [] new).1._lastRegisterMessageID [], 5002) ::
            [(Line.json "ack" "4" [], 5003)]) (tickAt 5000 [] new).1 =
        messageProcessing
          [(Line.json "ack" (tickAt 5000 [] new).1._lastRegisterMessageID [], 5002)]
          (tickAt 5000 [] new).1 :=
  ⟨by decide,
    ((unmatched_ack_ignored (tickAt 5000 [] new).1).2 (by decide)
      [(Line.json "ack" "17" [], 5001)] [(Line.json "ack" "4" [], 5003)] 5002 []
      (by decide) (by decide)).1⟩

/-! ## One tick -/

/-- C8 fails as stated: the message id of the Register is not always fresh.  In the
session that is DISCONNECTED after the registration "10000" (its tick began at 5000 and
read the clock at 10000 for the id) was timed out by the tick at 10000, the next tick at
10000 emits a Register whose message id is the previous pending register id. -/
theorem disconnected_tick_counterexample :
    (tickAt 10000 [] slowRegisteringSession).1._connectionState = DISCONNECTED ∧
      (tickAt 10000 [] slowRegisteringSession).1._lastRegisterMessageID = "10000" ∧
      usub 10000 (tickAt 10000 [] slowRegisteringSession).1._lastAttemptTime ≥
        (tickAt 10000 [] slowRegisteringSession).1._retryInterval ∧
      (tickAt 10000 [] (tickAt 10000 [] slowRegisteringSession).1).2 =
        [Event.sent [("type", JsonValue.str "register"), ("device_id", JsonValue.str ""),
          ("message_id", JsonValue.str "10000")]] ∧
      (tickAt 10000 [] (tickAt 10000 [] slowRegisteringSession).1).1._lastRegisterMessageID =
        (tickAt 10000 [] slowRegisteringSession).1._lastRegisterMessageID := by
  decide

/-- C8, amended: in state DISCONNECTED a tick with no inbound lines, when the retry
interval has elapsed, emits exactly one Register message with the device id and, as
message id, the decimal string of the clock reading taken for it, records that id as
pending register id, sets `_lastAttemptTime` to the time of the tick and moves to
REGISTERING, changing nothing else; when the interval has not elapsed it emits nothing and
leaves the session as it is.  The message id differs from the previous pending register
id when that one is empty, and when that one is the decimal string of a clock reading it
differs exactly when the two readings differ: always when the previous one was read
before this tick under a clock that does not go back, never when both were read in the
same millisecond. -/
theorem disconnected_tick (s : Arduino_DIH) (now t1 t2 : Nat)
    (h : s._connectionState = DISCONNECTED) :
    (usub now s._lastAttemptTime ≥ s._retryInterval →
      loop now [] t1 t2 s =
          ({ s with _connectionState := REGISTERING, _lastAttemptTime := now,
                    _lastRegisterMessageID := StringOf t1 },
           [Event.sent [("type", JsonValue.str "register"),
                        ("device_id", JsonValue.str s._deviceID),
                        ("message_id", JsonValue.str (StringOf t1))]]) ∧
        (s._lastRegisterMessageID = "" → StringOf t1 ≠ s._lastRegisterMessageID) ∧
        (∀ r0 : Nat, s._lastRegisterMessageID = StringOf r0 →
          (StringOf t1 ≠ s._lastRegisterMessageID ↔ r0 ≠ t1)) ∧
        (∀ r0 : Nat, s._lastRegisterMessageID = StringOf r0 → r0 < now → now ≤ t1 →
          StringOf t1 ≠ s._lastRegisterMessageID)) ∧
    (¬ usub now s._lastAttemptTime ≥ s._retryInterval → loop now [] t1 t2 s = (s, [])) := by
  constructor
  · intro hr
    refine ⟨by simp [loop, messageProcessing, connectionManagement, h, hr, registerDevice],
      ?_, ?_, ?_⟩
    · intro hid hc
      rw [hid] at hc
      exact StringOf_ne_empty t1 hc
    · intro r0 hid
      rw [hid]
      constructor
      · intro hne hc
        exact hne (by rw [hc])
      · intro hne hc
        exact hne (StringOf_injective _ _ hc).symm
    · intro r0 hid h1 h2 hc
      rw [hid] at hc
      have := StringOf_injective _ _ hc
      omega
  · intro hr
    simp [loop, messageProcessing, connectionManagement, h, hr]

theorem disconnected_tick_witness :
    (tickAt 10000 [] lateIdSession).1._connectionState = DISCONNECTED ∧
      usub 10001 (tickAt 10000 [] lateIdSession).1._lastAttemptTime ≥
        (tickAt 10000 [] lateIdSession).1._retryInterval ∧
      (tickAt 10000 [] lateIdSession).1._lastRegisterMessageID = StringOf 5003 ∧
      loop 10001 [] 10001 10001 (tickAt 10000 [] lateIdSession).1 =
        ({ (tickAt 10000 [] lateIdSession).1 with
            _connectionState := REGISTERING, _lastAttemptTime := 10001,
            _lastRegisterMessageID := StringOf 10001 },
         [Event.sent [("type", JsonValue.str "register"),
                      ("device_id", JsonValue.str (tickAt 10000 [] lateIdSession).1._deviceID),
                      ("message_id", JsonValue.str (StringOf 10001))]]) ∧
      StringOf 10001 ≠ (tickAt 10000 [] lateIdSession).1._lastRegisterMessageID :=
  ⟨by decide, by decide, by decide,
    ((disconnected_tick (tickAt 10000 [] lateIdSession).1 10001 10001 10001 (by decide)).1
      (by decide)).1,
    ((disconnected_tick (tickAt 10000 [] lateIdSession).1 10001 10001 10001 (by decide)).1
      (by decide)).2.2.2 5003 (by decide) (by decide) (by decide)⟩

/-! ## The registration flag and the connection state -/

theorem processIncomingMessage_flagMatchesState (t : Nat) (message : Line) (s : Arduino_DIH)
    (h : flagMatchesState s) : flagMatchesState (processIncomingMessage t message s).1 := by
  unfold flagMatchesState at *
  cases message with
  | malformed => simpa [processIncomingMessage] using h
  | json type message_id payload =>
    simp only [processIncomingMessage, handleAck, handleNack, handleData, handleCommand]
    split_ifs <;> simp_all

theorem messageProcessing_flagMatchesState (lines : List (Line × Nat)) :
    ∀ s : Arduino_DIH, flagMatchesState s → flagMatchesState (messageProcessing lines s).1 := by
  induction lines with
  | nil => intro s h; exact h
  | cons x xs ih =>
    intro s h
    obtain ⟨m, t⟩ := x
    exact ih _ (processIncomingMessage_flagMatchesState t m s h)

theorem connectionManagement_flagMatchesState (now t1 t2 : Nat) (s : Arduino_DIH)
    (h : flagMatchesState s) : flagMatchesState (connectionManagement now t1 t2 s).1 := by
  unfold flagMatchesState at *
  unfold connectionManagement
  split
  · split_ifs <;> simp_all [registerDevice]
  · split_ifs <;> simp_all
  · split_ifs <;> simp_all [sendHeartbeat]

theorem apply_flagMatchesState (op : Op) (s : Arduino_DIH) (hop : op.isDeregister = false)
    (h : flagMatchesState s) : flagMatchesState (op.apply s).1 := by
  cases op with
  | loop k =>
    exact connectionManagement_flagMatchesState _ _ _ _
      (messageProcessing_flagMatchesState _ _ h)
  | registerDevice t1 t2 deviceID => exact h
  | deregisterDevice t => simp [Op.isDeregister] at hop
  | sendData t key value =>
    unfold flagMatchesState at *
    simp only [Op.apply, sendData]
    split_ifs <;> exact h
  | setDeviceID deviceID => exact h
  | onData callback => exact h
  | onCommand callback => exact h

theorem run_flagMatchesState (ops : List Op) : ∀ s : Arduino_DIH,
    (∀ op ∈ ops, op.isDeregister = false) → flagMatchesState s →
    flagMatchesState (run ops s).1 := by
  induction ops with
  | nil => intro s _ h; exact h
  | cons op rest ih =>
    intro s hops h
    exact ih _ (fun o ho => hops o (List.mem_cons_of_mem _ ho))
      (apply_flagMatchesState op s (hops op (List.mem_cons_self _ _)) h)

/-- C1 fails as stated: after a registration, `deregisterDevice` clears the flag while
the state remains REGISTERED. -/
theorem flag_iff_state_counterexample :
    ¬ (isRegistered (run [Op.loop (Tick.atTime 5000 []),
          Op.loop (Tick.atTime 5001 [Line.json "ack" "5000" []]),
          Op.deregisterDevice 5002] new).1 = true ↔
        getState (run [Op.loop (Tick.atTime 5000 []),
          Op.loop (Tick.atTime 5001 [Line.json "ack" "5000" []]),
          Op.deregisterDevice 5002] new).1 = REGISTERED) := by
  decide

theorem processIncomingMessage_flagImpliesState (t : Nat) (message : Line) (s : Arduino_DIH)
    (h : flagImpliesState s) : flagImpliesState (processIncomingMessage t message s).1 := by
  unfold flagImpliesState at *
  cases message with
  | malformed => simpa [processIncomingMessage] using h
  | json type message_id payload =>
    simp only [processIncomingMessage, handleAck, handleNack, handleData, handleCommand]
    split_ifs <;> simp_all

theorem messageProcessing_flagImpliesState (lines : List (Line × Nat)) :
    ∀ s : Arduino_DIH, flagImpliesState s → flagImpliesState (messageProcessing lines s).1 := by
  induction lines with
  | nil => intro s h; exact h
  | cons x xs ih =>
    intro s h
    obtain ⟨m, t⟩ := x
    exact ih _ (processIncomingMessage_flagImpliesState t m s h)

theorem connectionManagement_flagImpliesState (now t1 t2 : Nat) (s : Arduino_DIH)
    (h : flagImpliesState s) : flagImpliesState (connectionManagement now t1 t2 s).1 := by
  unfold flagImpliesState at *
  unfold connectionManagement
  split
  · split_ifs <;> simp_all [registerDevice]
  · split_ifs <;> simp_all
  · split_ifs <;> simp_all [sendHeartbeat]

theorem apply_flagImpliesState (op : Op) (s : Arduino_DIH) (h : flagImpliesState s) :
    flagImpliesState (op.apply s).1 := by
  cases op with
  | loop k =>
    exact connectionManagement_flagImpliesState _ _ _ _
      (messageProcessing_flagImpliesState _ _ h)
  | registerDevice t1 t2 deviceID => exact h
  | deregisterDevice t => intro hc; simp [Op.apply, deregisterDevice] at hc
  | sendData t key value =>
    unfold flagImpliesState at *
    simp only [Op.apply, sendData]
    split_ifs <;> exact h
  | setDeviceID deviceID => exact h
  | onData callback => exact h
  | onCommand callback => exact h

theorem run_flagImpliesState (ops : List Op) : ∀ s : Arduino_DIH,
    flagImpliesState s → flagImpliesState (run ops s).1 := by
  induction ops with
  | nil => intro s h; exact h
  | cons op rest ih =>
    intro s h
    exact ih _ (apply_flagImpliesState op s h)

/-- C1, amended: in every session reached from the constructor by any calls of the
public interface, `isRegistered()` true implies `getState()` REGISTERED; and when none of
the calls is `deregisterDevice` (only `loop` with any inbound lines and clock readings,
`registerDevice`, `sendData`, `setDeviceID`, `onData`, `onCommand`), `isRegistered()` is
true if and only if `getState()` is REGISTERED. -/
theorem flag_iff_state_without_deregister (ops : List Op) :
    (isRegistered (run ops new).1 = true → getState (run ops new).1 = REGISTERED) ∧
    ((∀ op ∈ ops, op.isDeregister = false) →
      (isRegistered (run ops new).1 = true ↔ getState (run ops new).1 = REGISTERED)) :=
  ⟨run_flagImpliesState ops new (by simp [flagImpliesState, new]),
    fun h => run_flagMatchesState ops new h (by simp [flagMatchesState, new])⟩

theorem flag_iff_state_without_deregister_witness :
    (∀ op ∈ [Op.loop (Tick.atTime 5000 []),
        Op.loop (Tick.atTime 5001 [Line.json "ack" "5000" []]),
        Op.sendData 5002 "temperature" "21"], op.isDeregister = false) ∧
      (isRegistered (run [Op.loop (Tick.atTime 5000 []),
          Op.loop (Tick.atTime 5001 [Line.json "ack" "5000" []]),
          Op.sendData 5002 "temperature" "21"] new).1 = true ↔
        getState (run [Op.loop (Tick.atTime 5000 []),
          Op.loop (Tick.atTime 5001 [Line.json "ack" "5000" []]),
          Op.sendData 5002 "temperature" "21"] new).1 = REGISTERED) :=
  ⟨by decide, (flag_iff_state_without_deregister _).2 (by decide)⟩

/-! ## Without an Ack for the registration the session never registers -/

theorem processIncomingMessage_unregistered (t : Nat) (message : Line) (s : Arduino_DIH)
    (h : unregistered s) (hn : ¬ acksRegistration s message) :
    unregistered (processIncomingMessage t message s).1 := by
  unfold unregistered at *
  cases message with
  | malformed => simpa [processIncomingMessage] using h
  | json type message_id payload =>
    simp only [acksRegistration] at hn
    simp only [processIncomingMessage, handleAck, handleNack, handleData, handleCommand]
    split_ifs <;> simp_all

theorem connectionManagement_unregistered (now t1 t2 : Nat) (s : Arduino_DIH)
    (h : unregistered s) : unregistered (connectionManagement now t1 t2 s).1 := by
  unfold unregistered at *
  unfold connectionManagement
  split
  · split_ifs <;> simp_all [registerDevice]
  · split_ifs <;> simp_all
  · simp_all

theorem statesOfLines_unregistered (lines : List (Line × Nat)) : ∀ s : Arduino_DIH,
    unregistered s → noRegistrationAck lines s →
    (∀ s1 ∈ statesOfLines lines s, unregistered s1) ∧
      unregistered (messageProcessing lines s).1 := by
  induction lines with
  | nil => intro s h _; exact ⟨by simp [statesOfLines], h⟩
  | cons x xs ih =>
    intro s h hn
    obtain ⟨m, t⟩ := x
    obtain ⟨hn1, hn2⟩ := hn
    have h1 := processIncomingMessage_unregistered t m s h hn1
    obtain ⟨ha, hb⟩ := ih _ h1 hn2
    refine ⟨?_, hb⟩
    intro s1 hs1
    simp only [statesOfLines, List.mem_cons] at hs1
    rcases hs1 with rfl | hs1
    · exact h1
    · exact ha s1 hs1

theorem statesOfTicks_unregistered (ticks : List Tick) : ∀ s : Arduino_DIH,
    unregistered s → neverAcked ticks s → ∀ s1 ∈ statesOfTicks ticks s, unregistered s1 := by
  induction ticks with
  | nil => intro s _ _ s1 hs1; simp [statesOfTicks] at hs1
  | cons k rest ih =>
    intro s h hn s1 hs1
    obtain ⟨hn1, hn2⟩ := hn
    obtain ⟨ha, hb⟩ := statesOfLines_unregistered k.lines s h hn1
    have hk : unregistered (k.apply s).1 :=
      connectionManagement_unregistered _ _ _ _ hb
    simp only [statesOfTicks, List.mem_append, List.mem_cons] at hs1
    rcases hs1 with hs1 | rfl | hs1
    · exact ha s1 hs1
    · exact hk
    · exact ih _ hk hn2 s1 hs1

/-- C2: along every sequence of ticks from the constructor in which no Ack carrying the
pending register id is handled while the state is REGISTERING, every session the run goes
through (the initial one, the one after each handled line, the one after each tick) is in
state DISCONNECTED or REGISTERING, never REGISTERED, and has `isRegistered()` false. -/
theorem never_registered_without_ack (ticks : List Tick) (h : neverAcked ticks new) :
    ∀ s ∈ new :: statesOfTicks ticks new,
      (getState s = DISCONNECTED ∨ getState s = REGISTERING) ∧
        getState s ≠ REGISTERED ∧ isRegistered s = false := by
  have hnew : unregistered new := by simp [unregistered, new]
  have key : ∀ s ∈ new :: statesOfTicks ticks new, unregistered s := by
    intro s hs
    rcases List.mem_cons.mp hs with rfl | hs
    · exact hnew
    · exact statesOfTicks_unregistered ticks new hnew h s hs
  intro s hs
  obtain ⟨h1, h2⟩ := key s hs
  refine ⟨?_, h1, h2⟩
  unfold getState
  cases hc : s._connectionState with
  | DISCONNECTED => exact Or.inl rfl
  | REGISTERING => exact Or.inr rfl
  | REGISTERED => exact absurd hc h1

theorem never_registered_without_ack_witness :
    neverAcked [Tick.atTime 5000 [], Tick.atTime 6000 [Line.json "ack" "17" []],
        Tick.atTime 10000 [Line.json "nack" "5000" []], Tick.atTime 15000 []] new ∧
      ∀ s ∈ new :: statesOfTicks [Tick.atTime 5000 [],
          Tick.atTime 6000 [Line.json "ack" "17" []],
          Tick.atTime 10000 [Line.json "nack" "5000" []], Tick.atTime 15000 []] new,
        (getState s = DISCONNECTED ∨ getState s = REGISTERING) ∧
          getState s ≠ REGISTERED ∧ isRegistered s = false :=
  ⟨by decide, never_registered_without_ack _ (by decide)⟩

/-- C5: in state REGISTERED with a heartbeat awaiting its Ack, a tick with no inbound
lines at a time with `now - _lastHeartbeatSentTime >= _heartbeatAckTimeout` sets the state
to DISCONNECTED, `_isRegistered` and `_awaitingHeartbeatAck` to false, changes nothing else
and emits nothing; and over every further sequence of ticks in which no Ack for a pending
registration is handled, `isRegistered()` is false in every session gone through. -/
theorem heartbeat_timeout_disconnects (s : Arduino_DIH) (now t1 t2 : Nat)
    (hs : s._connectionState = REGISTERED) (ha : s._awaitingHeartbeatAck = true)
    (ht : usub now s._lastHeartbeatSentTime ≥ s._heartbeatAckTimeout) :
    loop now [] t1 t2 s =
        ({ s with _connectionState := DISCONNECTED, _isRegistered := false,
                  _awaitingHeartbeatAck := false }, []) ∧
      isRegistered (loop now [] t1 t2 s).1 = false ∧
      ∀ ticks : List Tick, neverAcked ticks (loop now [] t1 t2 s).1 →
        ∀ s1 ∈ statesOfTicks ticks (loop now [] t1 t2 s).1,
          isRegistered s1 = false ∧ getState s1 ≠ REGISTERED := by
  have hl : loop now [] t1 t2 s =
      ({ s with _connectionState := DISCONNECTED, _isRegistered := false,
                _awaitingHeartbeatAck := false }, []) := by
    simp [loop, messageProcessing, connectionManagement, hs, ha, ht]
  refine ⟨hl, by rw [hl]; rfl, ?_⟩
  intro ticks hn s1 hs1
  have hu : unregistered (loop now [] t1 t2 s).1 := by
    rw [hl]; exact ⟨by simp, rfl⟩
  obtain ⟨h1, h2⟩ := statesOfTicks_unregistered ticks _ hu hn s1 hs1
  exact ⟨h2, h1⟩

theorem heartbeat_timeout_disconnects_witness :
    awaitingSession._connectionState = REGISTERED ∧
      awaitingSession._awaitingHeartbeatAck = true ∧
      usub 15000 awaitingSession._lastHeartbeatSentTime ≥
        awaitingSession._heartbeatAckTimeout ∧
      isRegistered (loop 15000 [] 15000 15000 awaitingSession).1 = false :=
  ⟨by decide, by decide, by decide,
    (heartbeat_timeout_disconnects awaitingSession 15000 15000 15000
      (by decide) (by decide) (by decide)).2.1⟩

/-! ## Heartbeats -/

theorem emitsHeartbeat_append (a b : List Event) :
    emitsHeartbeat (a ++ b) = (emitsHeartbeat a || emitsHeartbeat b) := by
  simp [emitsHeartbeat]

theorem processIncomingMessage_no_heartbeat (t : Nat) (message : Line) (s : Arduino_DIH) :
    emitsHeartbeat (processIncomingMessage t message s).2 = false := by
  cases message with
  | malformed => rfl
  | json type message_id payload =>
    simp only [processIncomingMessage, handleAck, handleNack, handleData, handleCommand]
    split_ifs <;> rfl

theorem messageProcessing_no_heartbeat (lines : List (Line × Nat)) : ∀ s : Arduino_DIH,
    emitsHeartbeat (messageProcessing lines s).2 = false := by
  induction lines with
  | nil => intro s; rfl
  | cons x xs ih =>
    intro s
    obtain ⟨m, t⟩ := x
    simp only [messageProcessing, emitsHeartbeat_append, ih,
      processIncomingMessage_no_heartbeat, Bool.or_self]

/-- The connection management emits a Heartbeat only through `sendHeartbeat`, in state
REGISTERED with no heartbeat awaiting its Ack and the heartbeat interval elapsed. -/
theorem connectionManagement_heartbeat (now t1 t2 : Nat) (s : Arduino_DIH)
    (h : emitsHeartbeat (connectionManagement now t1 t2 s).2 = true) :
    s._connectionState = REGISTERED ∧ s._awaitingHeartbeatAck = false ∧
      usub now s._lastHeartbeatSentTime ≥ s._heartbeatInterval ∧
      connectionManagement now t1 t2 s = sendHeartbeat t1 t2 s := by
  unfold connectionManagement at h ⊢
  split at h
  · split_ifs at h
    · exact absurd h (by simp [registerDevice, emitsHeartbeat, Event.isSent, docType,
        List.lookup])
    · exact absurd h (by simp [emitsHeartbeat])
  · split_ifs at h <;> exact absurd h (by simp [emitsHeartbeat])
  · rename_i hst
    split_ifs at h with h1 h2 h3
    · exact absurd h (by simp [emitsHeartbeat])
    · exact absurd h (by simp [emitsHeartbeat])
    · refine ⟨hst, by simpa using h1, h3, ?_⟩
      simp [hst, h1, h3]
    · exact absurd h (by simp [emitsHeartbeat])

theorem apply_no_heartbeat (op : Op) (s : Arduino_DIH) (hop : op.isLoop = false) :
    emitsHeartbeat (op.apply s).2 = false := by
  cases op with
  | loop k => simp [Op.isLoop] at hop
  | registerDevice t1 t2 deviceID => rfl
  | deregisterDevice t => rfl
  | sendData t key value =>
    simp only [Op.apply, sendData]
    split_ifs <;> rfl
  | setDeviceID deviceID => rfl
  | onData callback => rfl
  | onCommand callback => rfl

/-- C7: a tick emits a Heartbeat only if the session in which the connection management
is evaluated, the one left by the drain of the inbound lines, is in state REGISTERED with
`_awaitingHeartbeatAck` false; the drain itself emits no Heartbeat, the connection
management emits none in state DISCONNECTED or REGISTERING or while a heartbeat awaits its
Ack, and no call other than `loop` emits one. -/
theorem heartbeat_only_when_registered (s : Arduino_DIH) :
    (∀ k : Tick, emitsHeartbeat (k.apply s).2 = true →
      getState (messageProcessing k.lines s).1 = REGISTERED ∧
        (messageProcessing k.lines s).1._awaitingHeartbeatAck = false) ∧
    (∀ lines : List (Line × Nat), emitsHeartbeat (messageProcessing lines s).2 = false) ∧
    (∀ now t1 t2 : Nat,
      s._connectionState = DISCONNECTED ∨ s._connectionState = REGISTERING ∨
          s._awaitingHeartbeatAck = true →
        emitsHeartbeat (connectionManagement now t1 t2 s).2 = false) ∧
    (∀ op : Op, op.isLoop = false → emitsHeartbeat (op.apply s).2 = false) := by
  refine ⟨?_, fun lines => messageProcessing_no_heartbeat lines s, ?_,
    fun op hop => apply_no_heartbeat op s hop⟩
  · intro k hk
    simp only [Tick.apply, loop, emitsHeartbeat_append, messageProcessing_no_heartbeat,
      Bool.false_or] at hk
    obtain ⟨h1, h2, _, _⟩ := connectionManagement_heartbeat _ _ _ _ hk
    exact ⟨h1, h2⟩
  · intro now t1 t2 hst
    by_contra hc
    obtain ⟨h1, h2, _, _⟩ :=
      connectionManagement_heartbeat now t1 t2 s (by simpa using hc)
    rcases hst with h | h | h
    · rw [h1] at h; exact absurd h (by decide)
    · rw [h1] at h; exact absurd h (by decide)
    · rw [h2] at h; exact absurd h (by decide)

theorem heartbeat_only_when_registered_witness :
    emitsHeartbeat ((Tick.atTime 10000 []).apply (run [Op.loop (Tick.atTime 5000 []),
        Op.loop (Tick.atTime 5001 [Line.json "ack" "5000" []])] new).1).2 = true ∧
      getState (messageProcessing (Tick.atTime 10000 []).lines
        (run [Op.loop (Tick.atTime 5000 []),
          Op.loop (Tick.atTime 5001 [Line.json "ack" "5000" []])] new).1).1 = REGISTERED :=
  ⟨by decide, ((heartbeat_only_when_registered _).1 (Tick.atTime 10000 []) (by decide)).1⟩

/-! ## The spacing of heartbeats -/

theorem processIncomingMessage_heartbeat_frame (t : Nat) (message : Line) (s : Arduino_DIH) :
    (processIncomingMessage t message s).1._lastHeartbeatSentTime = s._lastHeartbeatSentTime ∧
      (processIncomingMessage t message s).1._heartbeatInterval = s._heartbeatInterval := by
  cases message with
  | malformed => exact ⟨rfl, rfl⟩
  | json type message_id payload =>
    simp only [processIncomingMessage, handleAck, handleNack, handleData, handleCommand]
    split_ifs <;> exact ⟨rfl, rfl⟩

theorem messageProcessing_heartbeat_frame (lines : List (Line × Nat)) : ∀ s : Arduino_DIH,
    (messageProcessing lines s).1._lastHeartbeatSentTime = s._lastHeartbeatSentTime ∧
      (messageProcessing lines s).1._heartbeatInterval = s._heartbeatInterval := by
  induction lines with
  | nil => intro s; exact ⟨rfl, rfl⟩
  | cons x xs ih =>
    intro s
    obtain ⟨m, t⟩ := x
    obtain ⟨h1, h2⟩ := processIncomingMessage_heartbeat_frame t m s
    obtain ⟨h3, h4⟩ := ih (processIncomingMessage t m s).1
    exact ⟨by simp only [messageProcessing]; rw [h3, h1],
      by simp only [messageProcessing]; rw [h4, h2]⟩

theorem connectionManagement_heartbeat_frame (now t1 t2 : Nat) (s : Arduino_DIH) :
    ((connectionManagement now t1 t2 s).1._lastHeartbeatSentTime = s._lastHeartbeatSentTime ∨
        (connectionManagement now t1 t2 s).1._lastHeartbeatSentTime = t2) ∧
      (connectionManagement now t1 t2 s).1._heartbeatInterval = s._heartbeatInterval := by
  unfold connectionManagement
  split
  · split_ifs <;> exact ⟨Or.inl rfl, rfl⟩
  · split_ifs <;> exact ⟨Or.inl rfl, rfl⟩
  · split_ifs
    · exact ⟨Or.inl rfl, rfl⟩
    · exact ⟨Or.inl rfl, rfl⟩
    · exact ⟨Or.inr rfl, rfl⟩
    · exact ⟨Or.inl rfl, rfl⟩

theorem tick_heartbeat_frame (k : Tick) (s : Arduino_DIH) :
    ((k.apply s).1._lastHeartbeatSentTime = s._lastHeartbeatSentTime ∨
        (k.apply s).1._lastHeartbeatSentTime = k.t2) ∧
      (k.apply s).1._heartbeatInterval = s._heartbeatInterval := by
  obtain ⟨h1, h2⟩ := messageProcessing_heartbeat_frame k.lines s
  obtain ⟨h3, h4⟩ := connectionManagement_heartbeat_frame k.currentTime k.t1 k.t2
    (messageProcessing k.lines s).1
  simp only [Tick.apply, loop]
  exact ⟨by rw [← h1]; exact h3, by rw [← h2]; exact h4⟩

theorem apply_heartbeat_frame (op : Op) (s : Arduino_DIH) :
    ((op.apply s).1._lastHeartbeatSentTime = s._lastHeartbeatSentTime ∨
        ∃ k, op = Op.loop k ∧ (op.apply s).1._lastHeartbeatSentTime = k.t2) ∧
      (op.apply s).1._heartbeatInterval = s._heartbeatInterval := by
  cases op with
  | loop k =>
    obtain ⟨h1, h2⟩ := tick_heartbeat_frame k s
    refine ⟨?_, h2⟩
    rcases h1 with h | h
    · exact Or.inl h
    · exact Or.inr ⟨k, rfl, h⟩
  | registerDevice t1 t2 deviceID => exact ⟨Or.inl rfl, rfl⟩
  | deregisterDevice t => exact ⟨Or.inl rfl, rfl⟩
  | sendData t key value =>
    simp only [Op.apply, sendData]
    split_ifs <;> exact ⟨Or.inl rfl, rfl⟩
  | setDeviceID deviceID => exact ⟨Or.inl rfl, rfl⟩
  | onData callback => exact ⟨Or.inl rfl, rfl⟩
  | onCommand callback => exact ⟨Or.inl rfl, rfl⟩

/-- A tick that emits a Heartbeat found the heartbeat interval elapsed since the last
one was sent, and stores the second reading of `sendHeartbeat` as the time of sending. -/
theorem tick_heartbeat (k : Tick) (s : Arduino_DIH)
    (h : emitsHeartbeat (k.apply s).2 = true) :
    usub k.currentTime s._lastHeartbeatSentTime ≥ s._heartbeatInterval ∧
      (k.apply s).1._lastHeartbeatSentTime = k.t2 := by
  obtain ⟨h1, h2⟩ := messageProcessing_heartbeat_frame k.lines s
  simp only [Tick.apply, loop, emitsHeartbeat_append, messageProcessing_no_heartbeat,
    Bool.false_or] at h
  obtain ⟨_, _, h3, h4⟩ := connectionManagement_heartbeat _ _ _ _ h
  rw [h1, h2] at h3
  refine ⟨h3, ?_⟩
  simp only [Tick.apply, loop, h4, sendHeartbeat]

theorem mem_tick_readings (k : Tick) :
    k.currentTime ∈ k.readings ∧ k.t2 ∈ k.readings := by
  simp [Tick.readings]

theorem clockReadings_append (a b : List Op) :
    clockReadings (a ++ b) = clockReadings a ++ clockReadings b := by
  induction a with
  | nil => rfl
  | cons x xs ih => simp [clockReadings, ih]

/-- After a session whose last heartbeat was sent at or after `lo`, under a clock that
never goes back to before that sending, a tick can emit a Heartbeat only a heartbeat
interval after `lo`. -/
theorem heartbeat_spacing_aux (mid : List Op) : ∀ (s : Arduino_DIH) (b : Tick) (lo : Nat),
    lo ≤ s._lastHeartbeatSentTime →
    (clockReadings (mid ++ [Op.loop b])).Pairwise (· ≤ ·) →
    (∀ r ∈ clockReadings (mid ++ [Op.loop b]), s._lastHeartbeatSentTime ≤ r ∧ r < ULONG) →
    emitsHeartbeat (b.apply (run mid s).1).2 = true →
    lo + s._heartbeatInterval ≤ b.currentTime := by
  induction mid with
  | nil =>
    intro s b lo hlo _ hr hb
    obtain ⟨h1, _⟩ := tick_heartbeat b s hb
    have hmem : b.currentTime ∈ clockReadings ([] ++ [Op.loop b]) := by
      simp [clockReadings, Op.readings, Tick.readings]
    obtain ⟨h2, h3⟩ := hr _ hmem
    rw [usub_of_le _ _ h2 h3] at h1
    omega
  | cons op rest ih =>
    intro s b lo hlo hp hr hb
    obtain ⟨hf1, hf2⟩ := apply_heartbeat_frame op s
    have hp2 : (op.readings ++ clockReadings (rest ++ [Op.loop b])).Pairwise (· ≤ ·) := hp
    rw [List.pairwise_append] at hp2
    obtain ⟨_, hp3, hp4⟩ := hp2
    have hr2 : ∀ r ∈ clockReadings (rest ++ [Op.loop b]),
        s._lastHeartbeatSentTime ≤ r ∧ r < ULONG := by
      intro r hrm
      exact hr r (by
        show r ∈ op.readings ++ clockReadings (rest ++ [Op.loop b])
        exact List.mem_append_right _ hrm)
    have hrun : run (op :: rest) s = ((run rest (op.apply s).1).1,
        (op.apply s).2 ++ (run rest (op.apply s).1).2) := rfl
    rw [hrun] at hb
    rw [← hf2]
    rcases hf1 with h | ⟨k, hk, h⟩
    · exact ih (op.apply s).1 b lo (by rw [h]; exact hlo) hp3
        (by rw [h]; exact hr2) hb
    · have hk2 : k.t2 ∈ op.readings := by
        rw [hk]; exact (mem_tick_readings k).2
      have hk3 : s._lastHeartbeatSentTime ≤ k.t2 :=
        (hr k.t2 (by
          show k.t2 ∈ op.readings ++ clockReadings (rest ++ [Op.loop b])
          exact List.mem_append_left _ hk2)).1
      exact ih (op.apply s).1 b lo (by rw [h]; omega) hp3
        (by
          intro r hrm
          rw [h]
          exact ⟨hp4 k.t2 hk2 r hrm, (hr2 r hrm).2⟩) hb

/-- C6: under a clock that never goes back and never wraps around, when a tick at time
`a.currentTime` emits a Heartbeat, then after any calls in between (ticks with any
inbound lines, among them the Ack of the heartbeat or none, and any other calls of the
interface) no tick at a time earlier than `a.currentTime + _heartbeatInterval` emits a
Heartbeat. -/
theorem heartbeat_spacing (s : Arduino_DIH) (a b : Tick) (mid : List Op)
    (hclock : monotoneClock (Op.loop a :: (mid ++ [Op.loop b])))
    (ha : emitsHeartbeat (a.apply s).2 = true)
    (hb : b.currentTime < a.currentTime + s._heartbeatInterval) :
    emitsHeartbeat (b.apply (run mid (a.apply s).1).1).2 = false := by
  by_contra hc
  have hc2 : emitsHeartbeat (b.apply (run mid (a.apply s).1).1).2 = true := by
    simpa using hc
  obtain ⟨hp, hlt⟩ := hclock
  have hp2 : (a.readings ++ clockReadings (mid ++ [Op.loop b])).Pairwise (· ≤ ·) := hp
  obtain ⟨_, hsent⟩ := tick_heartbeat a s ha
  obtain ⟨_, hint⟩ := tick_heartbeat_frame a s
  have hle : a.currentTime ≤ a.t2 := by
    have h1 : (a.currentTime :: (a.lines.map Prod.snd ++ [a.t1, a.t2])).Pairwise (· ≤ ·) :=
      (List.pairwise_append.mp hp2).1
    exact (List.pairwise_cons.mp h1).1 a.t2 (by simp)
  have hrest := (List.pairwise_append.mp hp2).2
  have key := heartbeat_spacing_aux mid (a.apply s).1 b a.currentTime
    (by rw [hsent]; exact hle) hrest.1
    (by
      intro r hr
      rw [hsent]
      exact ⟨hrest.2 a.t2 (mem_tick_readings a).2 r hr,
        hlt r (by
          show r ∈ a.readings ++ clockReadings (mid ++ [Op.loop b])
          exact List.mem_append_right _ hr)⟩) hc2
  rw [hint] at key
  omega

theorem heartbeat_spacing_witness :
    monotoneClock (Op.loop (Tick.atTime 10000 []) ::
        ([Op.loop (Tick.atTime 10001 [Line.json "ack" "10000" []]),
          Op.sendData 12000 "temperature" "21"] ++ [Op.loop (Tick.atTime 15000 [])])) ∧
      emitsHeartbeat ((Tick.atTime 10000 []).apply registeredSession).2 = true ∧
      (Tick.atTime 15000 []).currentTime <
        (Tick.atTime 10000 []).currentTime + registeredSession._heartbeatInterval ∧
      emitsHeartbeat ((Tick.atTime 15000 []).apply
        (run [Op.loop (Tick.atTime 10001 [Line.json "ack" "10000" []]),
          Op.sendData 12000 "temperature" "21"]
          ((Tick.atTime 10000 []).apply registeredSession).1).1).2 = false :=
  ⟨by decide, by decide, by decide,
    heartbeat_spacing registeredSession (Tick.atTime 10000 []) (Tick.atTime 15000 [])
      [Op.loop (Tick.atTime 10001 [Line.json "ack" "10000" []]),
        Op.sendData 12000 "temperature" "21"] (by decide) (by decide) (by decide)⟩

/-! ## The registration retry -/

/-- In state REGISTERING, lines that are neither an Ack for the pending registration nor
a Nack nor a Data message change at most the heartbeat wait flag and the liveness time,
and write nothing to the stream. -/
theorem drain_quiet_lines (lines : List (Line × Nat)) : ∀ s : Arduino_DIH,
    s._connectionState = REGISTERING → noRegistrationAck lines s →
    (∀ l ∈ lines, ¬ l.1.hasType "nack" ∧ ¬ l.1.hasType "data") →
    (∃ a h, (messageProcessing lines s).1 =
      { s with _awaitingHeartbeatAck := a, _lastHeartbeatTime := h }) ∧
      ∀ e ∈ (messageProcessing lines s).2, e.isOutbound = false := by
  induction lines with
  | nil =>
    intro s _ _ _
    exact ⟨⟨s._awaitingHeartbeatAck, s._lastHeartbeatTime, rfl⟩, by simp [messageProcessing]⟩
  | cons x xs ih =>
    intro s hs hn hq
    obtain ⟨m, t⟩ := x
    obtain ⟨hn1, hn2⟩ := hn
    obtain ⟨hq1, hq2⟩ := hq (m, t) (List.mem_cons_self _ _)
    have hrest : ∀ l ∈ xs, ¬ l.1.hasType "nack" ∧ ¬ l.1.hasType "data" :=
      fun l hl => hq l (List.mem_cons_of_mem _ hl)
    have hstep : (∃ a h, (processIncomingMessage t m s).1 =
        { s with _awaitingHeartbeatAck := a, _lastHeartbeatTime := h }) ∧
        ∀ e ∈ (processIncomingMessage t m s).2, e.isOutbound = false := by
      cases m with
      | malformed =>
        exact ⟨⟨s._awaitingHeartbeatAck, s._lastHeartbeatTime, rfl⟩,
          by simp [processIncomingMessage]⟩
      | json type message_id payload =>
        simp only [Line.hasType] at hq1 hq2
        simp only [acksRegistration, not_and] at hn1
        simp only [processIncomingMessage, handleAck, handleCommand]
        rw [if_neg hq1, if_neg hq2]
        by_cases hty : type = "ack"
        · have hne : ¬ (s._connectionState = REGISTERING ∧
              message_id = s._lastRegisterMessageID) := fun hc => hn1 hty hc.1 hc.2
          rw [if_pos hty, if_neg hne]
          split_ifs
          · exact ⟨⟨false, t, rfl⟩, by simp⟩
          · exact ⟨⟨s._awaitingHeartbeatAck, s._lastHeartbeatTime, rfl⟩, by simp⟩
        · rw [if_neg hty]
          split_ifs
          · exact ⟨⟨s._awaitingHeartbeatAck, s._lastHeartbeatTime, rfl⟩,
              by simp [Event.isOutbound]⟩
          · exact ⟨⟨s._awaitingHeartbeatAck, s._lastHeartbeatTime, rfl⟩, by simp⟩
          · exact ⟨⟨s._awaitingHeartbeatAck, s._lastHeartbeatTime, rfl⟩, by simp⟩
    obtain ⟨⟨a, h, hst⟩, hev⟩ := hstep
    rw [hst] at hn2
    obtain ⟨⟨a2, h2, hst2⟩, hev2⟩ :=
      ih { s with _awaitingHeartbeatAck := a, _lastHeartbeatTime := h } hs hn2 hrest
    refine ⟨⟨a2, h2, ?_⟩, ?_⟩
    · simp only [messageProcessing, hst, hst2]
    · intro e he
      simp only [messageProcessing, List.mem_append] at he
      rcases he with he | he
      · exact hev e he
      · rw [hst] at he
        exact hev2 e he

/-- C9 fails as stated: from the session waiting for the Ack of the registration sent at
5000, a tick at 10000 whose only inbound line is a Nack (no matching Ack) does not end in
DISCONNECTED without output, it ends in REGISTERING with a new Register sent; a tick at
10000 whose only inbound line is a Data message writes an Ack to the stream; and from the
session whose registration tick began at 5000 and read the clock at 10000 for the id, the
tick at 10000 times the registration out and the next tick at 10000 sends a Register with
the id of the previous pending registration. -/
theorem registering_timeout_counterexample :
    (registeringSession._connectionState = REGISTERING ∧
      usub 10000 registeringSession._lastAttemptTime ≥ registeringSession._retryInterval ∧
      noRegistrationAck [(Line.json "nack" "5000" [], 10000)] registeringSession ∧
      (tickAt 10000 [Line.json "nack" "5000" []] registeringSession).1._connectionState
        = REGISTERING ∧
      (tickAt 10000 [Line.json "nack" "5000" []] registeringSession).2 =
        [Event.sent [("type", JsonValue.str "register"), ("device_id", JsonValue.str ""),
          ("message_id", JsonValue.str "10000")]]) ∧
    (noRegistrationAck [(Line.json "data" "7" [], 10000)] registeringSession ∧
      (tickAt 10000 [Line.json "data" "7" []] registeringSession).2 =
        [Event.sent [("type", JsonValue.str "ack"), ("message_id", JsonValue.str "7")]]) ∧
    (slowRegisteringSession._connectionState = REGISTERING ∧
      slowRegisteringSession._lastRegisterMessageID = "10000" ∧
      usub 10000 slowRegisteringSession._lastAttemptTime ≥
        slowRegisteringSession._retryInterval ∧
      (tickAt 10000 [] slowRegisteringSession).1._connectionState = DISCONNECTED ∧
      (tickAt 10000 [] (tickAt 10000 [] slowRegisteringSession).1).2 =
        [Event.sent [("type", JsonValue.str "register"), ("device_id", JsonValue.str ""),
          ("message_id", JsonValue.str "10000")]]) := by
  decide

/-- C9, amended: for a session in state REGISTERING, a tick at a time `now` with
`now - _lastAttemptTime >= _retryInterval` whose inbound lines hold no Ack for the pending
registration, no Nack and no Data message moves the state to DISCONNECTED, changing
besides at most the heartbeat wait flag and the liveness time, and writes nothing to the
stream; and the next tick, with no inbound lines under a clock that does not go back or
wrap around, emits exactly one Register message, records its id as pending register id
and moves to REGISTERING.  When the previous pending register id is the decimal string of
a clock reading, the new message id differs from it exactly when the two readings differ:
always when the previous one was read before the tick that timed the registration out,
never when both were read in the same millisecond. -/
theorem registering_timeout_retries (s : Arduino_DIH) (now t1 t2 : Nat)
    (lines : List (Line × Nat)) (next : Tick)
    (hs : s._connectionState = REGISTERING)
    (hto : usub now s._lastAttemptTime ≥ s._retryInterval)
    (hack : noRegistrationAck lines s)
    (hquiet : ∀ l ∈ lines, ¬ l.1.hasType "nack" ∧ ¬ l.1.hasType "data")
    (hnext : next.lines = [])
    (h1 : s._lastAttemptTime ≤ now) (h2 : now ≤ next.currentTime)
    (h4 : next.currentTime < ULONG) :
    getState (loop now lines t1 t2 s).1 = DISCONNECTED ∧
      (∃ a h, (loop now lines t1 t2 s).1 =
        { s with _connectionState := DISCONNECTED, _awaitingHeartbeatAck := a,
                 _lastHeartbeatTime := h }) ∧
      (∀ e ∈ (loop now lines t1 t2 s).2, e.isOutbound = false) ∧
      (next.apply (loop now lines t1 t2 s).1).2 =
        [Event.sent [("type", JsonValue.str "register"),
                     ("device_id", JsonValue.str s._deviceID),
                     ("message_id", JsonValue.str (StringOf next.t1))]] ∧
      (∀ r0 : Nat, s._lastRegisterMessageID = StringOf r0 →
        (StringOf next.t1 ≠ s._lastRegisterMessageID ↔ r0 ≠ next.t1)) ∧
      (∀ r0 : Nat, s._lastRegisterMessageID = StringOf r0 → r0 < now →
        next.currentTime ≤ next.t1 → StringOf next.t1 ≠ s._lastRegisterMessageID) ∧
      (next.apply (loop now lines t1 t2 s).1).1._lastRegisterMessageID = StringOf next.t1 ∧
      getState (next.apply (loop now lines t1 t2 s).1).1 = REGISTERING := by
  obtain ⟨⟨a, h, hst⟩, hev⟩ := drain_quiet_lines lines s hs hack hquiet
  have hnow : now < ULONG := by omega
  have hsub : usub now s._lastAttemptTime = now - s._lastAttemptTime :=
    usub_of_le _ _ h1 hnow
  have hsub2 : usub next.currentTime s._lastAttemptTime =
      next.currentTime - s._lastAttemptTime := usub_of_le _ _ (by omega) h4
  have hto2 : usub next.currentTime s._lastAttemptTime ≥ s._retryInterval := by
    rw [hsub] at hto; rw [hsub2]; omega
  have hloop : loop now lines t1 t2 s =
      ({ s with _connectionState := DISCONNECTED, _awaitingHeartbeatAck := a,
                _lastHeartbeatTime := h }, (messageProcessing lines s).2) := by
    simp only [loop, hst, connectionManagement, hs]
    simp [hto]
  refine ⟨by rw [hloop]; rfl, ⟨a, h, by rw [hloop]⟩, ?_, ?_, ?_, ?_, ?_, ?_⟩
  · rw [hloop]; exact hev
  · rw [hloop]
    simp [Tick.apply, loop, hnext, messageProcessing, connectionManagement, hto2,
      registerDevice]
  · intro r0 hid
    rw [hid]
    constructor
    · intro hne hc
      exact hne (by rw [hc])
    · intro hne hc
      exact hne (StringOf_injective _ _ hc).symm
  · intro r0 hid hr0 h3 hc
    rw [hid] at hc
    have := StringOf_injective _ _ hc
    omega
  · rw [hloop]
    simp [Tick.apply, loop, hnext, messageProcessing, connectionManagement, hto2,
      registerDevice]
  · rw [hloop]
    simp [Tick.apply, loop, hnext, messageProcessing, connectionManagement, hto2,
      registerDevice, getState]

theorem registering_timeout_retries_witness :
    lateIdSession._connectionState = REGISTERING ∧
      lateIdSession._lastRegisterMessageID = StringOf 5003 ∧
      lateIdSession._lastAttemptTime = 5000 ∧
      getState (loop 10000 [(Line.json "ack" "17" [], 10000),
        (Line.json "command" "18" [("led", "on")], 10000)] 10000 10000
          lateIdSession).1 = DISCONNECTED ∧
      StringOf (Tick.atTime 10001 []).t1 ≠ lateIdSession._lastRegisterMessageID :=
  ⟨by decide, by decide, by decide,
    (registering_timeout_retries lateIdSession 10000 10000 10000
      [(Line.json "ack" "17" [], 10000), (Line.json "command" "18" [("led", "on")], 10000)]
      (Tick.atTime 10001 []) (by decide) (by decide) (by decide) (by decide) (by decide)
      (by decide) (by decide) (by decide)).1,
    (registering_timeout_retries lateIdSession 10000 10000 10000
      [(Line.json "ack" "17" [], 10000), (Line.json "command" "18" [("led", "on")], 10000)]
      (Tick.atTime 10001 []) (by decide) (by decide) (by decide) (by decide) (by decide)
      (by decide) (by decide) (by decide)).2.2.2.2.2.1 5003 (by decide) (by decide)
      (by decide)⟩

/-! ## Data in both directions -/

/-- C11: in every connection state, handling a Data message with message id `m` calls the
registered data callback with the payload of the message and then writes exactly one Ack
with message id `m` to the stream, changing no field of the session; with no callback
registered only the Ack is written. -/
theorem data_dispatched_and_acked (s : Arduino_DIH) (t : Nat) (m : String)
    (payload : List (String × String)) :
    (processIncomingMessage t (Line.json "data" m payload) s).1 = s ∧
    (s._dataCallback = true →
      (processIncomingMessage t (Line.json "data" m payload) s).2 =
        [Event.dataCallback payload,
         Event.sent [("type", JsonValue.str "ack"), ("message_id", JsonValue.str m)]]) ∧
    (s._dataCallback = false →
      (processIncomingMessage t (Line.json "data" m payload) s).2 =
        [Event.sent [("type", JsonValue.str "ack"), ("message_id", JsonValue.str m)]]) ∧
    processIncomingMessage t (Line.json "data" m payload) s = handleData m payload s := by
  have h1 : ("data" : String) ≠ "ack" := by decide
  have h2 : ("data" : String) ≠ "nack" := by decide
  refine ⟨?_, ?_, ?_, ?_⟩
  · simp [processIncomingMessage, handleData, h1, h2]
  · intro hc
    simp [processIncomingMessage, handleData, h1, h2, hc]
  · intro hc
    simp [processIncomingMessage, handleData, h1, h2, hc]
  · simp [processIncomingMessage, h1, h2]

theorem data_dispatched_and_acked_witness :
    (onData true new)._connectionState = DISCONNECTED ∧
      (processIncomingMessage 100 (Line.json "data" "42" [("led", "on")]) (onData true new)).2 =
        [Event.dataCallback [("led", "on")],
         Event.sent [("type", JsonValue.str "ack"), ("message_id", JsonValue.str "42")]] :=
  ⟨rfl, (data_dispatched_and_acked (onData true new) 100 "42" [("led", "on")]).2.1 rfl⟩

/-- C12: `sendData(key, value)` with `isRegistered()` false emits nothing and changes no
field of the session; with `isRegistered()` true it emits exactly one Data message with
the device id and the payload `{key: value}` and changes no field of the session. -/
theorem sendData_gated (s : Arduino_DIH) (t : Nat) (key value : String) :
    (isRegistered s = false → sendData t key value s = (s, [])) ∧
    (isRegistered s = true →
      sendData t key value s =
        (s, [Event.sent [("type", JsonValue.str "data"),
                         ("device_id", JsonValue.str s._deviceID),
                         ("message_id", JsonValue.str (StringOf t)),
                         ("payload", JsonValue.obj [(key, value)])]])) := by
  constructor
  · intro h
    simp only [isRegistered] at h
    simp [sendData, h]
  · intro h
    simp only [isRegistered] at h
    simp [sendData, h]

theorem sendData_gated_witness :
    isRegistered registeredSession = true ∧
      sendData 7000 "temperature" "21" registeredSession =
        (registeredSession,
         [Event.sent [("type", JsonValue.str "data"),
                      ("device_id", JsonValue.str registeredSession._deviceID),
                      ("message_id", JsonValue.str (StringOf 7000)),
                      ("payload", JsonValue.obj [("temperature", "21")])]]) :=
  ⟨by decide, (sendData_gated registeredSession 7000 "temperature" "21").2 (by decide)⟩

/-! ## Calls of the host program -/

/-- C13: in every session `deregisterDevice()` emits exactly one Deregister message with
the device id, sets `_isRegistered` to false and leaves the connection state and every
other field (timers, pending ids, `_awaitingHeartbeatAck`) as they are. -/
theorem deregisterDevice_frame (s : Arduino_DIH) (t : Nat) :
    deregisterDevice t s =
        ({ s with _isRegistered := false },
         [Event.sent [("type", JsonValue.str "deregister"),
                      ("device_id", JsonValue.str s._deviceID),
                      ("message_id", JsonValue.str (StringOf t))]]) ∧
      isRegistered (deregisterDevice t s).1 = false ∧
      getState (deregisterDevice t s).1 = getState s ∧
      (deregisterDevice t s).1._awaitingHeartbeatAck = s._awaitingHeartbeatAck ∧
      (deregisterDevice t s).1._lastAttemptTime = s._lastAttemptTime ∧
      (deregisterDevice t s).1._lastHeartbeatTime = s._lastHeartbeatTime ∧
      (deregisterDevice t s).1._lastHeartbeatSentTime = s._lastHeartbeatSentTime ∧
      (deregisterDevice t s).1._lastRegisterMessageID = s._lastRegisterMessageID ∧
      (deregisterDevice t s).1._lastHeartbeatMessageID = s._lastHeartbeatMessageID :=
  ⟨rfl, rfl, rfl, rfl, rfl, rfl, rfl, rfl, rfl⟩

/-- C20: a direct call of `registerDevice(id)` emits exactly one Register message and
changes only `_deviceID`, `_lastAttemptTime` and the pending register id; the connection
state and `_isRegistered` stay as they are.  So after a call in state DISCONNECTED, an Ack
carrying the id just sent, handled before the connection management runs, leaves the state
DISCONNECTED and `_isRegistered` as it was (false when it was false), and emits nothing. -/
theorem registerDevice_direct (s : Arduino_DIH) (t1 t2 t : Nat) (deviceID : String) :
    registerDevice t1 t2 deviceID s =
        ({ s with _deviceID := deviceID, _lastAttemptTime := t2,
                  _lastRegisterMessageID := StringOf t1 },
         [Event.sent [("type", JsonValue.str "register"),
                      ("device_id", JsonValue.str deviceID),
                      ("message_id", JsonValue.str (StringOf t1))]]) ∧
      getState (registerDevice t1 t2 deviceID s).1 = getState s ∧
      isRegistered (registerDevice t1 t2 deviceID s).1 = isRegistered s ∧
      (getState s = DISCONNECTED →
        getState (handleAck t (StringOf t1) (registerDevice t1 t2 deviceID s).1).1
            = DISCONNECTED ∧
          isRegistered (handleAck t (StringOf t1) (registerDevice t1 t2 deviceID s).1).1
            = isRegistered s ∧
          (isRegistered s = false →
            isRegistered (handleAck t (StringOf t1) (registerDevice t1 t2 deviceID s).1).1
              = false) ∧
          (handleAck t (StringOf t1) (registerDevice t1 t2 deviceID s).1).2 = []) := by
  refine ⟨rfl, rfl, rfl, ?_⟩
  intro hs
  simp only [getState] at hs
  have key : getState (handleAck t (StringOf t1) (registerDevice t1 t2 deviceID s).1).1
        = DISCONNECTED ∧
      isRegistered (handleAck t (StringOf t1) (registerDevice t1 t2 deviceID s).1).1
        = isRegistered s ∧
      (handleAck t (StringOf t1) (registerDevice t1 t2 deviceID s).1).2 = [] := by
    simp only [handleAck, registerDevice, getState, isRegistered, hs]
    split_ifs <;> simp_all
  exact ⟨key.1, key.2.1, fun hf => by rw [key.2.1, hf], key.2.2⟩

theorem registerDevice_direct_witness :
    getState new = DISCONNECTED ∧
      getState (handleAck 1001 (StringOf 1000) (registerDevice 1000 1000 "dev-1" new).1).1
        = DISCONNECTED ∧
      isRegistered (handleAck 1001 (StringOf 1000) (registerDevice 1000 1000 "dev-1" new).1).1
        = false :=
  ⟨rfl, ((registerDevice_direct new 1000 1000 1001 "dev-1").2.2.2 rfl).1,
    ((registerDevice_direct new 1000 1000 1001 "dev-1").2.2.2 rfl).2.2.1 rfl⟩

/-! ## Leaving REGISTERED -/

/-- C16: a step that starts in state REGISTERED and ends in another state is either the
handling of a Nack line, or the connection management of a tick with
`_awaitingHeartbeatAck` true and `now - _lastHeartbeatSentTime >= _heartbeatAckTimeout`;
the handling of any other line, any other connection management, and the calls
`registerDevice`, `deregisterDevice`, `sendData`, `setDeviceID`, `onData`, `onCommand`
end in state REGISTERED. -/
theorem leaves_registered_only_by_nack_or_timeout (s : Arduino_DIH)
    (hs : s._connectionState = REGISTERED) :
    (∀ (t : Nat) (line : Line),
      getState (processIncomingMessage t line s).1 ≠ REGISTERED → line.hasType "nack") ∧
    (∀ now t1 t2 : Nat,
      getState (connectionManagement now t1 t2 s).1 ≠ REGISTERED →
        s._awaitingHeartbeatAck = true ∧
          usub now s._lastHeartbeatSentTime ≥ s._heartbeatAckTimeout) ∧
    (∀ op : Op, op.isLoop = false → getState (op.apply s).1 = REGISTERED) := by
  refine ⟨?_, ?_, ?_⟩
  · intro t line hne
    cases line with
    | malformed => exact absurd hs hne
    | json type message_id payload =>
      by_contra hn
      simp only [Line.hasType] at hn
      apply hne
      simp only [processIncomingMessage, handleAck, handleData, handleCommand, getState]
      split_ifs <;> simp_all
  · intro now t1 t2 hne
    by_contra hc
    apply hne
    simp only [connectionManagement, hs, getState]
    split_ifs <;> simp_all [sendHeartbeat]
  · intro op hop
    cases op with
    | loop k => simp [Op.isLoop] at hop
    | registerDevice t1 t2 deviceID => exact hs
    | deregisterDevice t => exact hs
    | sendData t key value =>
      simp only [Op.apply, sendData, getState]
      split_ifs <;> exact hs
    | setDeviceID deviceID => exact hs
    | onData callback => exact hs
    | onCommand callback => exact hs

theorem leaves_registered_only_by_nack_or_timeout_witness :
    awaitingSession._connectionState = REGISTERED ∧
      getState (connectionManagement 15000 15000 15000 awaitingSession).1 ≠ REGISTERED ∧
      (awaitingSession._awaitingHeartbeatAck = true ∧
        usub 15000 awaitingSession._lastHeartbeatSentTime ≥
          awaitingSession._heartbeatAckTimeout) :=
  ⟨by decide, by decide,
    (leaves_registered_only_by_nack_or_timeout awaitingSession (by decide)).2.1
      15000 15000 15000 (by decide)⟩

/-- C19: in every session reached from the constructor by any calls of the public
interface with any inbound lines, also in the middle of a drain, `isRegistered()` true
implies `getState()` REGISTERED; the converse fails after `deregisterDevice`, which
clears the flag inside state REGISTERED. -/
theorem flag_implies_registered (ops : List Op) :
    (isRegistered (run ops new).1 = true → getState (run ops new).1 = REGISTERED) ∧
    (∀ lines : List (Line × Nat),
      isRegistered (messageProcessing lines (run ops new).1).1 = true →
        getState (messageProcessing lines (run ops new).1).1 = REGISTERED) ∧
    (getState (deregisterDevice 5002 registeredSession).1 = REGISTERED ∧
      isRegistered (deregisterDevice 5002 registeredSession).1 = false) := by
  have h := run_flagImpliesState ops new (by simp [flagImpliesState, new])
  exact ⟨h, fun lines => messageProcessing_flagImpliesState lines _ h, by decide⟩

theorem flag_implies_registered_witness :
    isRegistered (run [Op.loop (Tick.atTime 5000 []),
        Op.loop (Tick.atTime 5001 [Line.json "ack" "5000" []]),
        Op.setDeviceID "dev-2"] new).1 = true ∧
      getState (run [Op.loop (Tick.atTime 5000 []),
        Op.loop (Tick.atTime 5001 [Line.json "ack" "5000" []]),
        Op.setDeviceID "dev-2"] new).1 = REGISTERED :=
  ⟨by decide, (flag_implies_registered _).1 (by decide)⟩

/-! ## The first registration -/

/-- C14 fails as stated: from the freshly constructed session with device id "dev-1" the
tick at time 0 emits nothing, so no Register message, because the retry interval has not
elapsed since `_lastAttemptTime = 0`; and the tick at time 6000 does not leave the state
DISCONNECTED, it ends in REGISTERING. -/
theorem first_registration_counterexample :
    (tickAt 0 [] dev1).2 = [] ∧
      (¬ ∃ m1 : String, (tickAt 0 [] dev1).2 =
        [Event.sent [("type", JsonValue.str "register"), ("device_id", JsonValue.str "dev-1"),
          ("message_id", JsonValue.str m1)]]) ∧
      getState (tickAt 6000 [] (tickAt 0 [] dev1).1).1 = REGISTERING ∧
      getState (tickAt 6000 [] (tickAt 0 [] dev1).1).1 ≠ DISCONNECTED := by
  have h0 : (tickAt 0 [] dev1).2 = [] := by decide
  refine ⟨h0, ?_, by decide, by decide⟩
  rintro ⟨m1, h⟩
  rw [h0] at h
  exact absurd h (by simp)

/-- C14, amended: from the freshly constructed session (retry interval 5000) with device
id "dev-1", a tick at time 0 emits nothing and changes nothing; a tick at time 6000 with no
inbound lines emits exactly one Register message with device id "dev-1" and message id
"6000", records it as pending register id and moves to REGISTERING; an Ack with id "6000"
handled at time 6001, directly or as the inbound line of a tick, makes the state
REGISTERED and `isRegistered()` true. -/
theorem first_registration_scenario :
    tickAt 0 [] dev1 = (dev1, []) ∧
      tickAt 6000 [] (tickAt 0 [] dev1).1 =
        ({ dev1 with _connectionState := REGISTERING, _lastAttemptTime := 6000,
                     _lastRegisterMessageID := "6000" },
         [Event.sent [("type", JsonValue.str "register"), ("device_id", JsonValue.str "dev-1"),
           ("message_id", JsonValue.str "6000")]]) ∧
      getState (handleAck 6001 "6000" (tickAt 6000 [] (tickAt 0 [] dev1).1).1).1
        = REGISTERED ∧
      isRegistered (handleAck 6001 "6000" (tickAt 6000 [] (tickAt 0 [] dev1).1).1).1 = true ∧
      getState (tickAt 6001 [Line.json "ack" "6000" []]
        (tickAt 6000 [] (tickAt 0 [] dev1).1).1).1 = REGISTERED ∧
      isRegistered (tickAt 6001 [Line.json "ack" "6000" []]
        (tickAt 6000 [] (tickAt 0 [] dev1).1).1).1 = true := by
  decide

/-! ## An Ack and the retry timeout in the same tick -/

theorem processIncomingMessage_registeredIdle (t : Nat) (line : Line) (s : Arduino_DIH)
    (hn : ¬ line.hasType "nack") (h : registeredIdle s) :
    registeredIdle (processIncomingMessage t line s).1 := by
  unfold registeredIdle at *
  cases line with
  | malformed => exact h
  | json type message_id payload =>
    simp only [Line.hasType] at hn
    simp only [processIncomingMessage, handleAck, handleData, handleCommand]
    split_ifs <;> simp_all

theorem processIncomingMessage_awaitsRegistration (t : Nat) (line : Line) (s : Arduino_DIH)
    (x : String) (hn : ¬ line.hasType "nack") (h : awaitsRegistration x s) :
    awaitsRegistration x (processIncomingMessage t line s).1 ∨
      registeredIdle (processIncomingMessage t line s).1 := by
  unfold awaitsRegistration registeredIdle at *
  cases line with
  | malformed => exact Or.inl h
  | json type message_id payload =>
    simp only [Line.hasType] at hn
    simp only [processIncomingMessage, handleAck, handleData, handleCommand]
    split_ifs <;> simp_all

/-- A drain without Nack lines keeps a session either waiting for the same registration
Ack or registered with no heartbeat in flight. -/
theorem drain_without_nack (lines : List (Line × Nat)) (x : String) : ∀ s : Arduino_DIH,
    (∀ l ∈ lines, ¬ l.1.hasType "nack") →
    (awaitsRegistration x s ∨ registeredIdle s) →
    (awaitsRegistration x (messageProcessing lines s).1 ∨
        registeredIdle (messageProcessing lines s).1) ∧
      (registeredIdle s → registeredIdle (messageProcessing lines s).1) := by
  induction lines with
  | nil => intro s _ h; exact ⟨h, fun hq => hq⟩
  | cons l rest ih =>
    intro s hn h
    obtain ⟨m, t⟩ := l
    have hm : ¬ m.hasType "nack" := hn (m, t) (List.mem_cons_self _ _)
    have hrest : ∀ l ∈ rest, ¬ l.1.hasType "nack" :=
      fun l hl => hn l (List.mem_cons_of_mem _ hl)
    have hstep : awaitsRegistration x (processIncomingMessage t m s).1 ∨
        registeredIdle (processIncomingMessage t m s).1 := by
      rcases h with h | h
      · exact processIncomingMessage_awaitsRegistration t m s x hm h
      · exact Or.inr (processIncomingMessage_registeredIdle t m s hm h)
    refine ⟨(ih _ hrest hstep).1, fun hq => ?_⟩
    exact (ih _ hrest (Or.inr (processIncomingMessage_registeredIdle t m s hm hq))).2
      (processIncomingMessage_registeredIdle t m s hm hq)

/-- C18: for every session in state REGISTERING, whether or not the retry interval has
elapsed, a tick whose inbound lines hold an Ack with the pending register id and no Nack
ends in state REGISTERED with `isRegistered()` true: the lines are all handled before the
connection management, which therefore runs in state REGISTERED with no heartbeat in
flight and emits either nothing or exactly one Heartbeat message, never a Register. -/
theorem ack_handled_before_timeout (s : Arduino_DIH) (now t1 t2 t : Nat)
    (before after lines : List (Line × Nat)) (payload : List (String × String))
    (hs : s._connectionState = REGISTERING)
    (hl : lines = before ++ (Line.json "ack" s._lastRegisterMessageID payload, t) :: after)
    (hb : ∀ l ∈ before, ¬ l.1.hasType "nack") (ha : ∀ l ∈ after, ¬ l.1.hasType "nack") :
    getState (loop now lines t1 t2 s).1 = REGISTERED ∧
      isRegistered (loop now lines t1 t2 s).1 = true ∧
      getState (loop now lines t1 t2 s).1 ≠ DISCONNECTED ∧
      registeredIdle (messageProcessing lines s).1 ∧
      (loop now lines t1 t2 s).2 = (messageProcessing lines s).2 ++
        (connectionManagement now t1 t2 (messageProcessing lines s).1).2 ∧
      ((connectionManagement now t1 t2 (messageProcessing lines s).1).2 = [] ∨
        (connectionManagement now t1 t2 (messageProcessing lines s).1).2 =
          [Event.sent [("type", JsonValue.str "heartbeat"),
                       ("device_id", JsonValue.str s._deviceID),
                       ("message_id", JsonValue.str (StringOf t1))]]) := by
  have hack : ¬ (Line.json "ack" s._lastRegisterMessageID payload).hasType "nack" := by
    simp only [Line.hasType]; decide
  have hall : ∀ l ∈ lines, ¬ l.1.hasType "nack" := by
    intro l hmem
    rw [hl] at hmem
    rcases List.mem_append.mp hmem with h | h
    · exact hb l h
    · rcases List.mem_cons.mp h with h | h
      · rw [h]; exact hack
      · exact ha l h
  have hdev : ∀ (ls : List (Line × Nat)) (s0 : Arduino_DIH),
      (messageProcessing ls s0).1._deviceID = s0._deviceID := by
    intro ls
    induction ls with
    | nil => intro s0; rfl
    | cons l rest ih =>
      intro s0
      obtain ⟨m, tm⟩ := l
      simp only [messageProcessing]
      rw [ih]
      cases m with
      | malformed => rfl
      | json type message_id pl =>
        simp only [processIncomingMessage, handleAck, handleNack, handleData, handleCommand]
        split_ifs <;> rfl
  have hq : registeredIdle (messageProcessing lines s).1 := by
    rw [hl, messageProcessing_append]
    have h1 := (drain_without_nack before s._lastRegisterMessageID s hb (Or.inl ⟨hs, rfl⟩)).1
    have h2 : registeredIdle (processIncomingMessage t
        (Line.json "ack" s._lastRegisterMessageID payload)
        (messageProcessing before s).1).1 := by
      rcases h1 with h1 | h1
      · unfold awaitsRegistration at h1
        unfold registeredIdle
        simp [processIncomingMessage, handleAck, h1.1, h1.2]
      · exact processIncomingMessage_registeredIdle _ _ _ hack h1
    simp only [messageProcessing]
    exact (drain_without_nack after s._lastRegisterMessageID _ ha (Or.inr h2)).2 h2
  obtain ⟨q1, q2, q3⟩ := hq
  have hcm : (connectionManagement now t1 t2 (messageProcessing lines s).1).1._connectionState
        = REGISTERED ∧
      (connectionManagement now t1 t2 (messageProcessing lines s).1).1._isRegistered = true ∧
      ((connectionManagement now t1 t2 (messageProcessing lines s).1).2 = [] ∨
        (connectionManagement now t1 t2 (messageProcessing lines s).1).2 =
          [Event.sent [("type", JsonValue.str "heartbeat"),
                       ("device_id", JsonValue.str s._deviceID),
                       ("message_id", JsonValue.str (StringOf t1))]]) := by
    have hd := hdev lines s
    have hcmeq : connectionManagement now t1 t2 (messageProcessing lines s).1 =
        if usub now (messageProcessing lines s).1._lastHeartbeatSentTime ≥
            (messageProcessing lines s).1._heartbeatInterval
        then sendHeartbeat t1 t2 (messageProcessing lines s).1
        else ((messageProcessing lines s).1, []) := by
      unfold connectionManagement
      rw [q1]
      simp [q3]
    rw [hcmeq]
    split_ifs
    · simp [sendHeartbeat, q1, q2, hd]
    · simp [q1, q2]
  refine ⟨hcm.1, hcm.2.1, ?_, ⟨q1, q2, q3⟩, rfl, hcm.2.2⟩
  have h := hcm.1
  simp only [getState, loop]
  rw [h]
  decide

theorem ack_handled_before_timeout_witness :
    registeringSession._connectionState = REGISTERING ∧
      usub 10000 registeringSession._lastAttemptTime ≥ registeringSession._retryInterval ∧
      getState (loop 10000 ([(Line.json "data" "9" [], 10000)] ++
        (Line.json "ack" registeringSession._lastRegisterMessageID [], 10000) ::
          [(Line.json "ack" "3" [], 10000)]) 10000 10000 registeringSession).1 = REGISTERED :=
  ⟨by decide, by decide,
    (ack_handled_before_timeout registeringSession 10000 10000 10000 10000
      [(Line.json "data" "9" [], 10000)] [(Line.json "ack" "3" [], 10000)] _ []
      (by decide) rfl (by decide) (by decide)).1⟩

/-! ## The pending correlation ids -/

theorem processIncomingMessage_pendingIdsSet (t : Nat) (line : Line) (s : Arduino_DIH)
    (h : pendingIdsSet s) : pendingIdsSet (processIncomingMessage t line s).1 := by
  unfold pendingIdsSet at *
  cases line with
  | malformed => exact h
  | json type message_id payload =>
    simp only [processIncomingMessage, handleAck, handleNack, handleData, handleCommand]
    split_ifs <;> simp_all

theorem messageProcessing_pendingIdsSet (lines : List (Line × Nat)) : ∀ s : Arduino_DIH,
    pendingIdsSet s → pendingIdsSet (messageProcessing lines s).1 := by
  induction lines with
  | nil => intro s h; exact h
  | cons l rest ih =>
    intro s h
    obtain ⟨m, t⟩ := l
    exact ih _ (processIncomingMessage_pendingIdsSet t m s h)

theorem connectionManagement_pendingIdsSet (now t1 t2 : Nat) (s : Arduino_DIH)
    (h : pendingIdsSet s) : pendingIdsSet (connectionManagement now t1 t2 s).1 := by
  have hne := StringOf_ne_empty t1
  unfold pendingIdsSet at *
  unfold connectionManagement
  split
  · split_ifs <;> simp_all [registerDevice]
  · split_ifs <;> simp_all
  · split_ifs <;> simp_all [sendHeartbeat]

theorem apply_pendingIdsSet (op : Op) (s : Arduino_DIH) (h : pendingIdsSet s) :
    pendingIdsSet (op.apply s).1 := by
  cases op with
  | loop k =>
    exact connectionManagement_pendingIdsSet _ _ _ _ (messageProcessing_pendingIdsSet _ _ h)
  | registerDevice t1 t2 deviceID =>
    exact ⟨h.1, fun _ => StringOf_ne_empty t1⟩
  | deregisterDevice t => exact h
  | sendData t key value =>
    unfold pendingIdsSet at *
    simp only [Op.apply, sendData]
    split_ifs <;> exact h
  | setDeviceID deviceID => exact h
  | onData callback => exact h
  | onCommand callback => exact h

theorem run_pendingIdsSet (ops : List Op) : ∀ s : Arduino_DIH,
    pendingIdsSet s → pendingIdsSet (run ops s).1 := by
  induction ops with
  | nil => intro s h; exact h
  | cons op rest ih => intro s h; exact ih _ (apply_pendingIdsSet op s h)

theorem processIncomingMessage_awaitingOnlyRegistered (t : Nat) (line : Line)
    (s : Arduino_DIH) (hn : ¬ nackWhileAwaiting s line) (h : awaitingOnlyRegistered s) :
    awaitingOnlyRegistered (processIncomingMessage t line s).1 := by
  unfold awaitingOnlyRegistered at *
  cases line with
  | malformed => exact h
  | json type message_id payload =>
    simp only [nackWhileAwaiting, not_and] at hn
    simp only [processIncomingMessage, handleAck, handleNack, handleData, handleCommand]
    split_ifs <;> simp_all

theorem messageProcessing_awaitingOnlyRegistered (lines : List (Line × Nat)) :
    ∀ s : Arduino_DIH, noNackWhileAwaiting lines s → awaitingOnlyRegistered s →
      awaitingOnlyRegistered (messageProcessing lines s).1 := by
  induction lines with
  | nil => intro s _ h; exact h
  | cons l rest ih =>
    intro s hn h
    obtain ⟨m, t⟩ := l
    obtain ⟨hn1, hn2⟩ := hn
    exact ih _ hn2 (processIncomingMessage_awaitingOnlyRegistered t m s hn1 h)

theorem connectionManagement_awaitingOnlyRegistered (now t1 t2 : Nat) (s : Arduino_DIH)
    (h : awaitingOnlyRegistered s) :
    awaitingOnlyRegistered (connectionManagement now t1 t2 s).1 := by
  unfold awaitingOnlyRegistered at *
  unfold connectionManagement
  split
  · split_ifs <;> simp_all [registerDevice]
  · split_ifs <;> simp_all
  · split_ifs <;> simp_all [sendHeartbeat]

theorem apply_awaitingOnlyRegistered (op : Op) (s : Arduino_DIH) (hn : op.nacksOnlyIdle s)
    (h : awaitingOnlyRegistered s) : awaitingOnlyRegistered (op.apply s).1 := by
  cases op with
  | loop k =>
    exact connectionManagement_awaitingOnlyRegistered _ _ _ _
      (messageProcessing_awaitingOnlyRegistered _ _ hn h)
  | registerDevice t1 t2 deviceID => exact h
  | deregisterDevice t => exact h
  | sendData t key value =>
    unfold awaitingOnlyRegistered at *
    simp only [Op.apply, sendData]
    split_ifs <;> exact h
  | setDeviceID deviceID => exact h
  | onData callback => exact h
  | onCommand callback => exact h

theorem run_awaitingOnlyRegistered (ops : List Op) : ∀ s : Arduino_DIH,
    nacksOnlyIdle ops s → awaitingOnlyRegistered s →
    awaitingOnlyRegistered (run ops s).1 := by
  induction ops with
  | nil => intro s _ h; exact h
  | cons op rest ih =>
    intro s hn h
    obtain ⟨hn1, hn2⟩ := hn
    exact ih _ hn2 (apply_awaitingOnlyRegistered op s hn1 h)

/-- C15 fails as stated: in the freshly constructed session neither pending id is live,
and in the session in which a Nack arrived while a heartbeat was awaiting its Ack and the
same tick registered again, both are live. -/
theorem one_pending_id_counterexample :
    ¬ exactlyOneLive new ∧ (¬ registerIdLive new ∧ ¬ heartbeatIdLive new) ∧
      ¬ exactlyOneLive nackedWhileAwaitingSession ∧
      (registerIdLive nackedWhileAwaitingSession ∧
        heartbeatIdLive nackedWhileAwaitingSession) := by
  decide

/-- C15, amended: in every session reached from the constructor by calls of the public
interface, the pending register id is live exactly in state REGISTERING and the pending
heartbeat id is live exactly while `_awaitingHeartbeatAck` is true; and when every Nack of
the run is handled while `_awaitingHeartbeatAck` is false (as when the hub rejects a
registration), the heartbeat id is live only in state REGISTERED, so at most one of the
two ids is live (none in state DISCONNECTED and in state REGISTERED with no heartbeat in
flight). -/
theorem pending_ids_live (ops : List Op) :
    (registerIdLive (run ops new).1 ↔ (run ops new).1._connectionState = REGISTERING) ∧
    (heartbeatIdLive (run ops new).1 ↔ (run ops new).1._awaitingHeartbeatAck = true) ∧
    (nacksOnlyIdle ops new →
      (heartbeatIdLive (run ops new).1 → (run ops new).1._connectionState = REGISTERED) ∧
        ¬ (registerIdLive (run ops new).1 ∧ heartbeatIdLive (run ops new).1) ∧
        ((run ops new).1._connectionState = DISCONNECTED →
          ¬ registerIdLive (run ops new).1 ∧ ¬ heartbeatIdLive (run ops new).1)) := by
  have h1 := run_pendingIdsSet ops new (by simp [pendingIdsSet, new])
  refine ⟨⟨fun h => h.2, fun h => ⟨h1.2 h, h⟩⟩, ⟨fun h => h.2, fun h => ⟨h1.1 h, h⟩⟩, ?_⟩
  intro hn
  have h2 := run_awaitingOnlyRegistered ops new hn (by simp [awaitingOnlyRegistered, new])
  refine ⟨fun h => h2 h.2, ?_, ?_⟩
  · rintro ⟨hr, hh⟩
    have := h2 hh.2
    rw [hr.2] at this
    exact absurd this (by decide)
  · intro hd
    refine ⟨fun hr => ?_, fun hh => ?_⟩
    · rw [hr.2] at hd; exact absurd hd (by decide)
    · have := h2 hh.2
      rw [hd] at this
      exact absurd this (by decide)

theorem pending_ids_live_witness :
    nacksOnlyIdle [Op.loop (Tick.atTime 5000 []),
        Op.loop (Tick.atTime 5001 [Line.json "nack" "5000" []]),
        Op.loop (Tick.atTime 10000 []),
        Op.loop (Tick.atTime 10001 [Line.json "ack" "10000" []])] new ∧
      heartbeatIdLive (run [Op.loop (Tick.atTime 5000 []),
        Op.loop (Tick.atTime 5001 [Line.json "nack" "5000" []]),
        Op.loop (Tick.atTime 10000 []),
        Op.loop (Tick.atTime 10001 [Line.json "ack" "10000" []])] new).1 ∧
      ¬ (registerIdLive (run [Op.loop (Tick.atTime 5000 []),
          Op.loop (Tick.atTime 5001 [Line.json "nack" "5000" []]),
          Op.loop (Tick.atTime 10000 []),
          Op.loop (Tick.atTime 10001 [Line.json "ack" "10000" []])] new).1 ∧
        heartbeatIdLive (run [Op.loop (Tick.atTime 5000 []),
          Op.loop (Tick.atTime 5001 [Line.json "nack" "5000" []]),
          Op.loop (Tick.atTime 10000 []),
          Op.loop (Tick.atTime 10001 [Line.json "ack" "10000" []])] new).1) :=
  ⟨by decide, by decide, ((pending_ids_live _).2.2 (by decide)).2.1⟩

/-! ## Late Acks -/

theorem handleAck_of_ignoresAck (t : Nat) (x : String) (payload : List (String × String))
    (s : Arduino_DIH) (h : ignoresAck x s) :
    handleAck t x s = (s, []) ∧
      processIncomingMessage t (Line.json "ack" x payload) s = (s, []) := by
  obtain ⟨h1, h2⟩ := h
  have e : handleAck t x s = (s, []) := by
    unfold handleAck
    rw [if_neg (fun hc => h1 hc.1 hc.2.symm), if_neg (fun hc => h2 hc.1 hc.2.symm)]
  exact ⟨e, by simp [processIncomingMessage, e]⟩

theorem processIncomingMessage_ignoresAck (t : Nat) (line : Line) (x : String)
    (s : Arduino_DIH) (h : ignoresAck x s) :
    ignoresAck x (processIncomingMessage t line s).1 := by
  unfold ignoresAck at *
  cases line with
  | malformed => exact h
  | json type message_id payload =>
    simp only [processIncomingMessage, handleAck, handleNack, handleData, handleCommand]
    split_ifs <;> simp_all

theorem messageProcessing_ignoresAck (lines : List (Line × Nat)) (x : String) :
    ∀ s : Arduino_DIH, ignoresAck x s → ignoresAck x (messageProcessing lines s).1 := by
  induction lines with
  | nil => intro s h; exact h
  | cons l rest ih =>
    intro s h
    obtain ⟨m, t⟩ := l
    exact ih _ (processIncomingMessage_ignoresAck t m x s h)

theorem connectionManagement_ignoresAck (now t1 t2 : Nat) (x : String) (s : Arduino_DIH)
    (hid : StringOf t1 ≠ x) (h : ignoresAck x s) :
    ignoresAck x (connectionManagement now t1 t2 s).1 := by
  unfold ignoresAck at *
  unfold connectionManagement
  split
  · split_ifs <;> simp_all [registerDevice]
  · split_ifs <;> simp_all
  · split_ifs <;> simp_all [sendHeartbeat]

theorem apply_ignoresAck (op : Op) (x : String) (s : Arduino_DIH)
    (hid : ∀ r ∈ op.idReadings, StringOf r ≠ x) (h : ignoresAck x s) :
    ignoresAck x (op.apply s).1 := by
  cases op with
  | loop k =>
    exact connectionManagement_ignoresAck _ _ _ x _
      (hid k.t1 (by simp [Op.idReadings]))
      (messageProcessing_ignoresAck _ x _ h)
  | registerDevice t1 t2 deviceID =>
    exact ⟨fun _ => hid t1 (by simp [Op.idReadings]), h.2⟩
  | deregisterDevice t => exact h
  | sendData t key value =>
    unfold ignoresAck at *
    simp only [Op.apply, sendData]
    split_ifs <;> exact h
  | setDeviceID deviceID => exact h
  | onData callback => exact h
  | onCommand callback => exact h

theorem run_ignoresAck (ops : List Op) (x : String) : ∀ s : Arduino_DIH,
    (∀ r ∈ idReadings ops, StringOf r ≠ x) → ignoresAck x s →
    ignoresAck x (run ops s).1 := by
  induction ops with
  | nil => intro s _ h; exact h
  | cons op rest ih =>
    intro s hid h
    have h1 : ∀ r ∈ op.idReadings, StringOf r ≠ x := fun r hr =>
      hid r (by
        show r ∈ op.idReadings ++ idReadings rest
        exact List.mem_append_left _ hr)
    have h2 : ∀ r ∈ idReadings rest, StringOf r ≠ x := fun r hr =>
      hid r (by
        show r ∈ op.idReadings ++ idReadings rest
        exact List.mem_append_right _ hr)
    exact ih _ h2 (apply_ignoresAck op x s h1 h)

theorem idReadings_subset (ops : List Op) : ∀ r ∈ idReadings ops, r ∈ clockReadings ops := by
  induction ops with
  | nil => intro r hr; simp [idReadings] at hr
  | cons op rest ih =>
    intro r hr
    simp only [idReadings, List.mem_append] at hr
    simp only [clockReadings, List.mem_append]
    rcases hr with hr | hr
    · left
      cases op with
      | loop k =>
        simp only [Op.idReadings, List.mem_singleton] at hr
        simp [Op.readings, Tick.readings, hr]
      | registerDevice t1 t2 deviceID =>
        simp only [Op.idReadings, List.mem_singleton] at hr
        simp [Op.readings, hr]
      | deregisterDevice t => simp [Op.idReadings] at hr
      | sendData t key value => simp [Op.idReadings] at hr
      | setDeviceID deviceID => simp [Op.idReadings] at hr
      | onData callback => simp [Op.idReadings] at hr
      | onCommand callback => simp [Op.idReadings] at hr
    · right
      exact ih r hr

/-- C17 fails as stated, under a clock that never goes back: the ids are clock readings,
and a request sent within the same millisecond as the timed-out one carries its id.  From
the session whose pending registration "10000" shares its id with a heartbeat still marked
as awaiting, the tick at 15000 times the registration out, and the late Ack "10000" then
clears `_awaitingHeartbeatAck` and stamps `_lastHeartbeatTime`.  From the session whose
registration tick began at 5000 and read 10000 for the id, the tick at 10000 times the
registration out, the next tick at 10000 registers again with id "10000", and the late Ack
"10000" registers the session. -/
theorem late_ack_counterexample :
    (collidingSession._connectionState = REGISTERING ∧
      collidingSession._lastRegisterMessageID = "10000" ∧
      getState (tickAt 15000 [] collidingSession).1 = DISCONNECTED ∧
      (processIncomingMessage 15001 (Line.json "ack" "10000" [])
          (tickAt 15000 [] collidingSession).1).1 ≠ (tickAt 15000 [] collidingSession).1 ∧
      (tickAt 15000 [] collidingSession).1._awaitingHeartbeatAck = true ∧
      (processIncomingMessage 15001 (Line.json "ack" "10000" [])
          (tickAt 15000 [] collidingSession).1).1._awaitingHeartbeatAck = false) ∧
    (slowRegisteringSession._connectionState = REGISTERING ∧
      slowRegisteringSession._lastRegisterMessageID = "10000" ∧
      getState (tickAt 10000 [] slowRegisteringSession).1 = DISCONNECTED ∧
      getState (processIncomingMessage 10001 (Line.json "ack" "10000" [])
        (tickAt 10000 [] (tickAt 10000 [] slowRegisteringSession).1).1).1 = REGISTERED) := by
  decide

/-- C17, amended: let the connection management of a tick at time `now` time out, in
session `s`, a registration whose id was read at clock reading `r0` and is not also the id
of a heartbeat still marked as awaiting.  If no later call of the public interface reads
`r0` again for a message id (no later request in the same millisecond), in particular if
`r0` is before `now` and no later reading is before `now`, then after any such calls (ticks
with any inbound lines, re-registrations, other calls) and after any lines drained earlier
in the same tick, an Ack with the id of the timed-out registration changes no field of the
session and emits nothing.  The same holds for a timed-out heartbeat whose id was read not
after its sending time `_lastHeartbeatSentTime`, the heartbeat timeout being positive, the
clock not wrapped and no later reading being before `now`. -/
theorem late_ack_ignored (s : Arduino_DIH) (now t1 t2 t : Nat) (mid : List Op)
    (earlier : List (Line × Nat)) (payload : List (String × String)) :
    (∀ r0 : Nat, s._connectionState = REGISTERING →
      s._lastRegisterMessageID = StringOf r0 →
      (∀ r ∈ idReadings mid, r ≠ r0) →
      ¬ (s._awaitingHeartbeatAck = true ∧
          s._lastHeartbeatMessageID = s._lastRegisterMessageID) →
      usub now s._lastAttemptTime ≥ s._retryInterval →
      getState (connectionManagement now t1 t2 s).1 = DISCONNECTED ∧
        processIncomingMessage t (Line.json "ack" s._lastRegisterMessageID payload)
            (messageProcessing earlier (run mid (connectionManagement now t1 t2 s).1).1).1 =
          ((messageProcessing earlier (run mid (connectionManagement now t1 t2 s).1).1).1,
            [])) ∧
    (∀ r0 : Nat, s._connectionState = REGISTERING →
      s._lastRegisterMessageID = StringOf r0 → r0 < now →
      (∀ r ∈ clockReadings mid, now ≤ r) →
      ¬ (s._awaitingHeartbeatAck = true ∧
          s._lastHeartbeatMessageID = s._lastRegisterMessageID) →
      usub now s._lastAttemptTime ≥ s._retryInterval →
      getState (connectionManagement now t1 t2 s).1 = DISCONNECTED ∧
        processIncomingMessage t (Line.json "ack" s._lastRegisterMessageID payload)
            (messageProcessing earlier (run mid (connectionManagement now t1 t2 s).1).1).1 =
          ((messageProcessing earlier (run mid (connectionManagement now t1 t2 s).1).1).1,
            [])) ∧
    (∀ r0 : Nat, s._connectionState = REGISTERED → s._awaitingHeartbeatAck = true →
      s._lastHeartbeatMessageID = StringOf r0 → r0 ≤ s._lastHeartbeatSentTime →
      0 < s._heartbeatAckTimeout → s._lastHeartbeatSentTime ≤ now → now < ULONG →
      (∀ r ∈ clockReadings mid, now ≤ r) →
      usub now s._lastHeartbeatSentTime ≥ s._heartbeatAckTimeout →
      getState (connectionManagement now t1 t2 s).1 = DISCONNECTED ∧
        processIncomingMessage t (Line.json "ack" s._lastHeartbeatMessageID payload)
            (messageProcessing earlier (run mid (connectionManagement now t1 t2 s).1).1).1 =
          ((messageProcessing earlier (run mid (connectionManagement now t1 t2 s).1).1).1,
            [])) := by
  have hreg : ∀ r0 : Nat, s._connectionState = REGISTERING →
      s._lastRegisterMessageID = StringOf r0 →
      (∀ r ∈ idReadings mid, r ≠ r0) →
      ¬ (s._awaitingHeartbeatAck = true ∧
          s._lastHeartbeatMessageID = s._lastRegisterMessageID) →
      usub now s._lastAttemptTime ≥ s._retryInterval →
      getState (connectionManagement now t1 t2 s).1 = DISCONNECTED ∧
        processIncomingMessage t (Line.json "ack" s._lastRegisterMessageID payload)
            (messageProcessing earlier (run mid (connectionManagement now t1 t2 s).1).1).1 =
          ((messageProcessing earlier (run mid (connectionManagement now t1 t2 s).1).1).1,
            []) := by
    intro r0 hs hid hfresh hstale hto
    have hcm : connectionManagement now t1 t2 s =
        ({ s with _connectionState := DISCONNECTED }, []) := by
      simp [connectionManagement, hs, hto]
    have hlater : ∀ r ∈ idReadings mid, StringOf r ≠ s._lastRegisterMessageID := by
      intro r hr hc
      rw [hid] at hc
      exact hfresh r hr (StringOf_injective _ _ hc)
    have h0 : ignoresAck s._lastRegisterMessageID (connectionManagement now t1 t2 s).1 := by
      rw [hcm]
      exact ⟨fun hc => by simp at hc, fun ha hc => hstale ⟨ha, hc⟩⟩
    refine ⟨by rw [hcm]; rfl, ?_⟩
    exact (handleAck_of_ignoresAck t _ payload _
      (messageProcessing_ignoresAck earlier _ _ (run_ignoresAck mid _ _ hlater h0))).2
  refine ⟨hreg, ?_, ?_⟩
  · intro r0 hs hid hr0 hclock hstale hto
    refine hreg r0 hs hid ?_ hstale hto
    intro r hr hc
    have := hclock r (idReadings_subset mid r hr)
    omega
  · intro r0 hs ha hid hr0 hpos hle hnow hclock hto
    have hcm : connectionManagement now t1 t2 s =
        ({ s with _connectionState := DISCONNECTED, _isRegistered := false,
                  _awaitingHeartbeatAck := false }, []) := by
      simp [connectionManagement, hs, ha, hto]
    have hlater : ∀ r ∈ idReadings mid, StringOf r ≠ s._lastHeartbeatMessageID := by
      intro r hr hc
      rw [hid] at hc
      have h1 := StringOf_injective _ _ hc
      have h2 := hclock r (idReadings_subset mid r hr)
      rw [usub_of_le _ _ hle hnow] at hto
      omega
    have h0 : ignoresAck s._lastHeartbeatMessageID (connectionManagement now t1 t2 s).1 := by
      rw [hcm]
      exact ⟨fun hc => by simp at hc, fun hc => by simp at hc⟩
    refine ⟨by rw [hcm]; rfl, ?_⟩
    exact (handleAck_of_ignoresAck t _ payload _
      (messageProcessing_ignoresAck earlier _ _ (run_ignoresAck mid _ _ hlater h0))).2

theorem late_ack_ignored_witness :
    ((∀ r ∈ clockReadings [Op.loop (Tick.atTime 10001 []),
        Op.registerDevice 10002 10002 "dev-1"], 10000 ≤ r) ∧
      lateIdSession._connectionState = REGISTERING ∧
      lateIdSession._lastRegisterMessageID = StringOf 5003 ∧
      processIncomingMessage 10004 (Line.json "ack" lateIdSession._lastRegisterMessageID [])
          (messageProcessing [(Line.json "ack" "3" [], 10003)]
            (run [Op.loop (Tick.atTime 10001 []), Op.registerDevice 10002 10002 "dev-1"]
              (connectionManagement 10000 10000 10000 lateIdSession).1).1).1 =
        ((messageProcessing [(Line.json "ack" "3" [], 10003)]
            (run [Op.loop (Tick.atTime 10001 []), Op.registerDevice 10002 10002 "dev-1"]
              (connectionManagement 10000 10000 10000 lateIdSession).1).1).1, [])) ∧
    ((∀ r ∈ idReadings [Op.loop ⟨10000, [], 10001, 10001⟩], r ≠ 10000) ∧
      slowRegisteringSession._connectionState = REGISTERING ∧
      slowRegisteringSession._lastRegisterMessageID = StringOf 10000 ∧
      processIncomingMessage 10002
          (Line.json "ack" slowRegisteringSession._lastRegisterMessageID [])
          (messageProcessing []
            (run [Op.loop ⟨10000, [], 10001, 10001⟩]
              (connectionManagement 10000 10000 10000 slowRegisteringSession).1).1).1 =
        ((messageProcessing []
            (run [Op.loop ⟨10000, [], 10001, 10001⟩]
              (connectionManagement 10000 10000 10000 slowRegisteringSession).1).1).1, [])) ∧
    ((∀ r ∈ clockReadings [Op.loop (Tick.atTime 15006 []),
        Op.loop (Tick.atTime 15007 [Line.json "ack" "15006" []])], 15005 ≤ r) ∧
      lateHeartbeatSession._connectionState = REGISTERED ∧
      lateHeartbeatSession._awaitingHeartbeatAck = true ∧
      lateHeartbeatSession._lastHeartbeatMessageID = StringOf 10002 ∧
      lateHeartbeatSession._lastHeartbeatSentTime = 10005 ∧
      processIncomingMessage 25008
          (Line.json "ack" lateHeartbeatSession._lastHeartbeatMessageID [])
          (messageProcessing []
            (run [Op.loop (Tick.atTime 15006 []),
                Op.loop (Tick.atTime 15007 [Line.json "ack" "15006" []])]
              (connectionManagement 15005 15005 15005 lateHeartbeatSession).1).1).1 =
        ((messageProcessing []
            (run [Op.loop (Tick.atTime 15006 []),
                Op.loop (Tick.atTime 15007 [Line.json "ack" "15006" []])]
              (connectionManagement 15005 15005 15005 lateHeartbeatSession).1).1).1, [])) :=
  ⟨⟨by decide, by decide, by decide,
    ((late_ack_ignored lateIdSession 10000 10000 10000 10004
      [Op.loop (Tick.atTime 10001 []), Op.registerDevice 10002 10002 "dev-1"]
      [(Line.json "ack" "3" [], 10003)] []).2.1 5003
      (by decide) (by decide) (by decide) (by decide) (by decide) (by decide)).2⟩,
   ⟨by decide, by decide, by decide,
    ((late_ack_ignored slowRegisteringSession 10000 10000 10000 10002
      [Op.loop ⟨10000, [], 10001, 10001⟩] [] []).1 10000
      (by decide) (by decide) (by decide) (by decide) (by decide)).2⟩,
   ⟨by decide, by decide, by decide, by decide, by decide,
    ((late_ack_ignored lateHeartbeatSession 15005 15005 15005 25008
      [Op.loop (Tick.atTime 15006 []),
        Op.loop (Tick.atTime 15007 [Line.json "ack" "15006" []])]
      [] []).2.2 10002
      (by decide) (by decide) (by decide) (by decide) (by decide) (by decide) (by decide)
      (by decide) (by decide)).2⟩⟩

end DIH
